import Mathlib

/-!
Verification of the configuration-research repository against its
natural-language specification.

The development shallowly embeds the parts of the Python code the claims
are about:

* `src/Agentic Config Research.app/Contents/Resources/src/validators/config_validator.py`
  (security / range validation of parsed configuration data),
* `.../validators/link_validator.py` (bulk link validation),
* `.../processors/pdf_analyzer.py` (severity analysis of PDF text),
* `src/agents/config_research_agent.py` (research-task orchestration),
* `src/agents/troubleshooting_ai.py` (knowledge-base / pattern recommendations),
* `src/utils/validation_engine.py` (generic rule engine),
* `src/src/integration/cursor_integration.py` (workspace scanning).

Modelling conventions: Python dictionaries become association lists that keep
insertion order; Python floats used for score arithmetic become `Rat`
(no rounding-sensitive behaviour is claimed); wall-clock timestamps,
response times and generated UUIDs are elided or taken as oracle inputs;
calls into external libraries (HTTP, regex compilation for user-supplied
patterns, jsonschema, subprocess) are oracle parameters.
-/

namespace ConfigResearch

/-- Python-style value tree for parsed configuration data
(`json.load` / `yaml.safe_load` results).  Strings, integers, booleans,
`None`, dictionaries (ordered association lists) and lists.  Floats are not
modelled: every numeric value appearing in the claims is an integer. -/
inductive PyVal where
  | str : String → PyVal
  | int : Int → PyVal
  | bool : Bool → PyVal
  | none : PyVal
  | dict : List (String × PyVal) → PyVal
  | list : List PyVal → PyVal
deriving Repr

/-- Python `str.lower()`, character by character (all strings involved are
ASCII). -/
def pyLower (s : String) : String := String.mk (s.data.map Char.toLower)

/-- Python `str.upper()`, character by character. -/
def pyUpper (s : String) : String := String.mk (s.data.map Char.toUpper)

/-- Python's `needle in hay` on strings, as a boolean on character lists:
`needle` occurs contiguously inside `hay`. -/
def occursIn (needle : List Char) : List Char → Bool
  | [] => needle.isEmpty
  | c :: t => needle.isPrefixOf (c :: t) || occursIn needle t

/-- `occursIn` decides the `List.IsInfix` relation. -/
theorem occursIn_iff_infix (needle hay : List Char) :
    occursIn needle hay = true ↔ needle <:+: hay := by
  induction hay with
  | nil => simp [occursIn, List.isEmpty_iff]
  | cons c t ih =>
    simp [occursIn, List.infix_cons_iff, ih, List.isPrefixOf_iff_prefix,
      or_comm]

/-! ## 2.10 Integration gateway: workspace scanning (`_scan_workspace`) -/

/-- One file found in the workspace: its path and name (the path's final
component, used for extension matching), plus size and mtime as reported by
`stat`. -/
structure WorkspaceFile where
  path : String
  size : Nat
  modified : String
deriving Repr, DecidableEq

/-- An entry of the `excel_files` / `pdf_files` lists in a scan result. -/
structure ScanFileEntry where
  path : String
  size : Nat
  modified : String
deriving Repr, DecidableEq

/-- An entry of the `config_files` list (also records the extension with the
leading dot stripped). -/
structure ScanConfigEntry where
  path : String
  type : String
  size : Nat
  modified : String
deriving Repr, DecidableEq

/-- Result of `_scan_workspace` (the `scan_timestamp` field is a wall-clock
value and is not modelled). -/
structure ScanResult where
  excel_files : List ScanFileEntry
  pdf_files : List ScanFileEntry
  config_files : List ScanConfigEntry
  other_files : List ScanFileEntry
  total_files : Nat
deriving Repr

/-- `path.rglob("*.ext")`: the files of the workspace whose path ends with
the given dotted extension, in workspace order. -/
def rglob (files : List WorkspaceFile) (ext : String) : List WorkspaceFile :=
  files.filter (fun f => f.path.endsWith ext)

/-- The extension patterns `_scan_workspace` uses for spreadsheets. -/
def excelPatterns : List String := [".xlsx", ".xls", ".xlsm"]

/-- The extension patterns `_scan_workspace` uses for configuration files. -/
def configPatterns : List String :=
  [".json", ".yaml", ".yml", ".xml", ".ini", ".conf", ".cfg", ".properties"]

/-- `file_path.suffix.lstrip('.')`: the extension without the dot. -/
def extNoDot (ext : String) : String := ext.drop 1

/-- Shallow embedding of `CursorIntegration._scan_workspace`: collect Excel,
PDF and configuration files by extension pattern and set `total_files` to
the sum of those three list lengths (`other_files` stays empty: no code path
appends to it). -/
def scanWorkspace (files : List WorkspaceFile) : ScanResult :=
  let excel := (excelPatterns.flatMap (rglob files)).map
    (fun f => ScanFileEntry.mk f.path f.size f.modified)
  let pdfs := (rglob files ".pdf").map
    (fun f => ScanFileEntry.mk f.path f.size f.modified)
  let confs := (configPatterns.flatMap (fun pat =>
    (rglob files pat).map
      (fun f => ScanConfigEntry.mk f.path (extNoDot pat) f.size f.modified)))
  { excel_files := excel
    pdf_files := pdfs
    config_files := confs
    other_files := []
    total_files := excel.length + pdfs.length + confs.length }

/-- C9: for every workspace scan, `total_files` equals the sum of the
lengths of the returned `excel_files`, `pdf_files` and `config_files` lists
(`other_files` is not counted). -/
theorem scanWorkspace_total_eq (files : List WorkspaceFile) :
    (scanWorkspace files).total_files =
      (scanWorkspace files).excel_files.length +
      (scanWorkspace files).pdf_files.length +
      (scanWorkspace files).config_files.length := by
  rfl

/-! ## 2.6 Generic validation rule engine (`utils/validation_engine.py`) -/

/-- A validation rule (`ValidationRule` dataclass). -/
structure ValidationRule where
  name : String
  description : String
  rule_type : String
  pattern : Option String := Option.none
  schema : Option PyVal := Option.none
  custom_function : Option String := Option.none
  command : Option String := Option.none
  severity : String := "error"
  enabled : Bool := true

/-- Result of executing one rule (`ValidationResult` dataclass; the
`details`, `timestamp` and `execution_time` fields carry wall-clock values
or echo data already present in the message and are not modelled). -/
structure VResult where
  rule_name : String
  status : String
  message : String
deriving Repr, DecidableEq

/-- Aggregated report (`ValidationReport`; `validation_id`, `created_at` and
`execution_time` are wall-clock derived and not modelled). -/
structure ValidationReport where
  target : String
  total_rules : Nat
  passed_rules : Nat
  failed_rules : Nat
  warning_rules : Nat
  results : List VResult
  overall_status : String
deriving Repr

/-- Outcome of `subprocess.run` for a command rule. -/
inductive CommandOutcome where
  | finished (returncode : Int) (stdout stderr : String)
  | timedOut
  | failed (msg : String)

/-- Oracles for the engine's calls into external libraries and the OS:
`re`-module matching of a user-supplied pattern, `jsonschema.validate`
(`Option.none` = instance valid, `some m` = `ValidationError` with message
`m`), `subprocess.run`, and `stat` file modes (`Option.none` = path does
not exist). -/
structure RuleEnv where
  regexMatch : String → String → Bool
  schemaError : PyVal → List (String × PyVal) → Option String
  runCommand : String → CommandOutcome
  fileMode : String → Option Nat

/-- Convenience constructor for an error-status result. -/
def errResult (rule : String) (msg : String) : VResult :=
  { rule_name := rule, status := "error", message := msg }

/-- `_validate_regex`: every top-level string value must match the rule's
pattern (`re.match`); non-string values are skipped. -/
def validateRegex (env : RuleEnv) (rule : ValidationRule)
    (config : List (String × PyVal)) : VResult :=
  match rule.pattern with
  | Option.none => errResult rule.name "No regex pattern defined"
  | Option.some pat =>
    let failedFields := config.filter (fun kv =>
      match kv.2 with
      | PyVal.str s => !env.regexMatch pat s
      | _ => false)
    if failedFields.length > 0 then
      { rule_name := rule.name, status := "failed",
        message := s!"Regex validation failed for {failedFields.length} fields" }
    else
      { rule_name := rule.name, status := "passed",
        message := "Regex validation passed" }

/-- `_validate_schema`: validate the configuration against a JSON schema via
the `jsonschema` oracle. -/
def validateSchema (env : RuleEnv) (rule : ValidationRule)
    (config : List (String × PyVal)) : VResult :=
  match rule.schema with
  | Option.none => errResult rule.name "No schema defined"
  | Option.some sch =>
    match env.schemaError sch config with
    | Option.none =>
      { rule_name := rule.name, status := "passed",
        message := "Schema validation passed" }
    | Option.some m =>
      { rule_name := rule.name, status := "failed",
        message := s!"Schema validation failed: {m}" }

/-- A registered or built-in custom validator function. -/
def CustomFn : Type := List (String × PyVal) → Option String → VResult

/-- `_validate_check_required_fields`: `host`, `port`, `username` and
`password` must all be present as top-level keys. -/
def builtinCheckRequiredFields : CustomFn := fun config _ =>
  let required := ["host", "port", "username", "password"]
  let missing := required.filter (fun f => !(config.map Prod.fst).contains f)
  if missing.length > 0 then
    { rule_name := "check_required_fields", status := "failed",
      message := "Missing required fields: " ++ String.intercalate ", " missing }
  else
    { rule_name := "check_required_fields", status := "passed",
      message := "All required fields present" }

/-- `_validate_validate_json_syntax`: `json.dumps` of a parsed value tree
always succeeds, so this validator always passes in the model. -/
def builtinValidateJsonSyntax : CustomFn := fun _ _ =>
  { rule_name := "validate_json_syntax", status := "passed",
    message := "JSON syntax is valid" }

/-- `_validate_validate_yaml_syntax`: `yaml.dump` of a parsed value tree
always succeeds, so this validator always passes in the model. -/
def builtinValidateYamlSyntax : CustomFn := fun _ _ =>
  { rule_name := "validate_yaml_syntax", status := "passed",
    message := "YAML syntax is valid" }

/-- The weakness category `_validate_check_password_strength` assigns to one
password value, if any. -/
def passwordWeakness (value : String) : Option String :=
  if value.length < 8 then Option.some "too_short"
  else if !(value.toList.any Char.isUpper) then Option.some "no_uppercase"
  else if !(value.toList.any Char.isLower) then Option.some "no_lowercase"
  else if !(value.toList.any Char.isDigit) then Option.some "no_digit"
  else Option.none

/-- `_validate_check_password_strength`: warn when any top-level key whose
name contains "password" holds a weak string value. -/
def builtinCheckPasswordStrength : CustomFn := fun config _ =>
  let weak := config.filter (fun kv =>
    occursIn "password".toList (pyLower kv.1).toList &&
      (match kv.2 with
       | PyVal.str s => (passwordWeakness s).isSome
       | _ => false))
  if weak.length > 0 then
    { rule_name := "check_password_strength", status := "warning",
      message := s!"Weak passwords found in {weak.length} fields" }
  else
    { rule_name := "check_password_strength", status := "passed",
      message := "All passwords meet strength requirements" }

/-- `_validate_check_file_permissions`: warn when the target file is absent
or world-readable (mode bit `0o004`). -/
def builtinCheckFilePermissions (env : RuleEnv) : CustomFn := fun _ targetPath =>
  match targetPath with
  | Option.none =>
    { rule_name := "check_file_permissions", status := "warning",
      message := "File path not provided or file does not exist" }
  | Option.some p =>
    match env.fileMode p with
    | Option.none =>
      { rule_name := "check_file_permissions", status := "warning",
        message := "File path not provided or file does not exist" }
    | Option.some mode =>
      if mode % 8 ≥ 4 then
        { rule_name := "check_file_permissions", status := "warning",
          message := "File is readable by others (security risk)" }
      else
        { rule_name := "check_file_permissions", status := "passed",
          message := "File permissions are secure" }

/-- The engine's built-in custom validators, looked up (after the registered
ones) by `hasattr(self, f"_validate_{name}")` dispatch. -/
def builtinValidators (env : RuleEnv) : List (String × CustomFn) :=
  [("check_required_fields", builtinCheckRequiredFields),
   ("validate_json_syntax", builtinValidateJsonSyntax),
   ("validate_yaml_syntax", builtinValidateYamlSyntax),
   ("check_password_strength", builtinCheckPasswordStrength),
   ("check_file_permissions", builtinCheckFilePermissions env)]

/-- `_validate_custom`: dispatch to a registered custom validator, then to a
built-in one, else return an error-status result. -/
def validateCustom (env : RuleEnv) (registered : List (String × CustomFn))
    (rule : ValidationRule) (config : List (String × PyVal))
    (targetPath : Option String) : VResult :=
  match rule.custom_function with
  | Option.none => errResult rule.name "No custom function defined"
  | Option.some fn =>
    match (registered.find? (fun kv => kv.1 == fn)).map Prod.snd with
    | Option.some f => f config targetPath
    | Option.none =>
      match ((builtinValidators env).find? (fun kv => kv.1 == fn)).map Prod.snd with
      | Option.some f => f config targetPath
      | Option.none => errResult rule.name s!"Custom function '{fn}' not found"

/-- `_validate_command`: run the external command via the oracle. -/
def validateCommand (env : RuleEnv) (rule : ValidationRule) : VResult :=
  match rule.command with
  | Option.none => errResult rule.name "No command defined"
  | Option.some cmd =>
    match env.runCommand cmd with
    | CommandOutcome.finished rc _ _ =>
      if rc = 0 then
        { rule_name := rule.name, status := "passed",
          message := "Command validation passed" }
      else
        { rule_name := rule.name, status := "failed",
          message := s!"Command validation failed with return code {rc}" }
    | CommandOutcome.timedOut => errResult rule.name "Command validation timed out"
    | CommandOutcome.failed m => errResult rule.name s!"Command execution error: {m}"

/-- `_execute_rule`: dispatch on the rule type; an unknown type yields an
error-status result. -/
def executeRule (env : RuleEnv) (registered : List (String × CustomFn))
    (rule : ValidationRule) (config : List (String × PyVal))
    (targetPath : Option String) : VResult :=
  if rule.rule_type = "regex" then validateRegex env rule config
  else if rule.rule_type = "schema" then validateSchema env rule config
  else if rule.rule_type = "custom" then
    validateCustom env registered rule config targetPath
  else if rule.rule_type = "command" then validateCommand env rule
  else errResult rule.name s!"Unknown rule type: {rule.rule_type}"

/-- `_get_applicable_rules`: all enabled rules. -/
def applicableRules (rules : List ValidationRule) : List ValidationRule :=
  rules.filter (fun r => r.enabled)

/-- `validate_configuration`: execute every applicable (enabled) rule,
count `passed` / `failed` / `warning` statuses, and derive the overall
status (`failed` if any rule failed, else `warning` if any warned, else
`passed`). -/
def validateConfiguration (env : RuleEnv) (registered : List (String × CustomFn))
    (rules : List ValidationRule) (config : List (String × PyVal))
    (targetPath : Option String) : ValidationReport :=
  let applicable := applicableRules rules
  let results := applicable.map
    (fun r => executeRule env registered r config targetPath)
  let passedCount := results.countP (fun r => r.status == "passed")
  let failedCount := results.countP (fun r => r.status == "failed")
  let warningCount := results.countP (fun r => r.status == "warning")
  let overall :=
    if failedCount > 0 then "failed"
    else if warningCount > 0 then "warning"
    else "passed"
  { target := targetPath.getD "in-memory"
    total_rules := applicable.length
    passed_rules := passedCount
    failed_rules := failedCount
    warning_rules := warningCount
    results := results
    overall_status := overall }

/-- C8: the report's overall status is `failed` exactly when the failed-rule
count is positive, `warning` when no rule failed but at least one warned,
and `passed` otherwise; and the failed/warning counts are exactly the
numbers of result entries with those statuses. -/
theorem validateConfiguration_status_trichotomy
    (env : RuleEnv) (registered : List (String × CustomFn))
    (rules : List ValidationRule) (config : List (String × PyVal))
    (targetPath : Option String) :
    let report := validateConfiguration env registered rules config targetPath
    report.failed_rules = report.results.countP (fun r => r.status == "failed") ∧
    report.warning_rules = report.results.countP (fun r => r.status == "warning") ∧
    report.overall_status =
      (if report.failed_rules > 0 then "failed"
       else if report.warning_rules > 0 then "warning"
       else "passed") := by
  refine ⟨rfl, rfl, rfl⟩

/-- An all-`error` run used to witness C10: a single enabled rule of unknown
type `bogus` and trivial oracles. -/
def trivialRuleEnv : RuleEnv :=
  { regexMatch := fun _ _ => true
    schemaError := fun _ _ => Option.none
    runCommand := fun _ => CommandOutcome.timedOut
    fileMode := fun _ => Option.none }

/-- A rule whose `rule_type` no branch of `_execute_rule` recognises. -/
def bogusRule : ValidationRule :=
  { name := "bogus_rule", description := "unknown type", rule_type := "bogus" }

/-- A custom rule naming a validator that is neither registered nor
built-in. -/
def unknownCustomRule : ValidationRule :=
  { name := "mystery", description := "unregistered custom validator",
    rule_type := "custom", custom_function := Option.some "no_such_validator" }

/-- C10: a result with status `error` (unknown rule type, unregistered
custom validator, ...) is appended to the report but increments neither
`failed_rules` nor `warning_rules`; a report whose only non-passed results
have status `error` therefore reports overall status `passed`.  Stated on
the report of an arbitrary run: the error results are counted in neither
bucket, and if every result is `passed` or `error` the overall status is
`passed`.  The concrete run below exhibits the two cited error sources. -/
theorem validateConfiguration_error_results_passed
    (env : RuleEnv) (registered : List (String × CustomFn))
    (rules : List ValidationRule) (config : List (String × PyVal))
    (targetPath : Option String)
    (h : ∀ r ∈ (validateConfiguration env registered rules config
        targetPath).results, r.status = "passed" ∨ r.status = "error") :
    let report := validateConfiguration env registered rules config targetPath
    report.failed_rules = 0 ∧ report.warning_rules = 0 ∧
    report.total_rules = report.results.length ∧
    report.overall_status = "passed" := by
  intro report
  have hfail : report.failed_rules = 0 := by
    simp only [report, validateConfiguration, List.countP_eq_zero]
    intro r hr
    rcases h r hr with h1 | h1 <;> simp [h1]
  have hwarn : report.warning_rules = 0 := by
    simp only [report, validateConfiguration, List.countP_eq_zero]
    intro r hr
    rcases h r hr with h1 | h1 <;> simp [h1]
  refine ⟨hfail, hwarn, ?_, ?_⟩
  · simp [report, validateConfiguration, List.length_map]
  · show (if report.failed_rules > 0 then "failed"
      else if report.warning_rules > 0 then "warning" else "passed") = "passed"
    rw [hfail, hwarn]
    rfl

/-- Witness for C10: running the engine on the unknown-type rule and the
unregistered-custom-validator rule produces two `error` results, zero
failed/warning counts, and overall status `passed`. -/
theorem validateConfiguration_error_results_passed_witness :
    (validateConfiguration trivialRuleEnv [] [bogusRule, unknownCustomRule] []
        Option.none).results =
      [errResult "bogus_rule" "Unknown rule type: bogus",
       errResult "mystery" "Custom function 'no_such_validator' not found"] ∧
    (validateConfiguration trivialRuleEnv [] [bogusRule, unknownCustomRule] []
        Option.none).overall_status = "passed" :=
  ⟨rfl, (validateConfiguration_error_results_passed trivialRuleEnv []
      [bogusRule, unknownCustomRule] [] Option.none
      (by intro r hr; simp [validateConfiguration, applicableRules, bogusRule,
            unknownCustomRule, executeRule, validateCustom, errResult,
            builtinValidators, List.find?] at hr
          rcases hr with h | h <;> simp [h, errResult])).2.2.2⟩

/-! ## 2.5 Configuration file validator (`validators/config_validator.py`)

General validation: required fields, field formats and value ranges over a
parsed configuration tree. -/

/-- `f"{path}.{key}" if path else key`. -/
def joinPath (path key : String) : String :=
  if path = "" then key else path ++ "." ++ key

/-- Python `str()` of a value that `isinstance(value, (int, float))` accepts
in the range checks, together with its numeric magnitude (`bool` is an
`int` subclass in Python: `True` counts as 1, `False` as 0). -/
def pyNum : PyVal → Option (Int × String)
  | PyVal.int n => Option.some (n, toString n)
  | PyVal.bool b => Option.some (if b then (1, "True") else (0, "False"))
  | _ => Option.none

/-- The `value_ranges` table of `_initialize_validation_rules`, in insertion
order: name, min, max. -/
def valueRanges : List (String × Int × Int) :=
  [("port", 1, 65535), ("timeout", 1, 3600),
   ("retry_count", 0, 10), ("pool_size", 1, 1000)]

/-- The error messages the `value_ranges` loop of `_check_value_ranges`
emits for one visited entry (current dotted path, key, value): for every
range whose name occurs in the lowered key and a numeric value, an error if
the value is below the minimum, else an error if it is above the maximum. -/
def rangeErrorsFor (curPath key : String) (v : PyVal) : List String :=
  valueRanges.flatMap (fun r =>
    if occursIn r.1.toList (pyLower key).toList then
      match pyNum v with
      | Option.some (n, rep) =>
        if n < r.2.1 then
          [s!"Field '{curPath}' value {rep} is below minimum {r.2.1}"]
        else if n > r.2.2 then
          [s!"Field '{curPath}' value {rep} is above maximum {r.2.2}"]
        else []
      | Option.none => []
    else [])

/-- The `field_formats` table of `_initialize_validation_rules`: format name
and regex pattern source. -/
def fieldFormats : List (String × String) :=
  [("email", "^[a-zA-Z0-9._%+-]+@[a-zA-Z0-9.-]+\\.[a-zA-Z]\x7b2,\x7d$"),
   ("url", "^https?://[^\\s/$.?#].[^\\s]*$"),
   ("ip_address", "^(?:[0-9]\x7b1,3\x7d\\.)\x7b3\x7d[0-9]\x7b1,3\x7d$"),
   ("port", "^([1-9][0-9]\x7b0,4\x7d|[1-5][0-9]\x7b4\x7d|6[0-4][0-9]\x7b3\x7d|65[0-4][0-9]\x7b2\x7d|655[0-2][0-9]|6553[0-5])$"),
   ("version", "^\\d+\\.\\d+(\\.\\d+)?(-[a-zA-Z0-9]+)?$")]

/-- The error messages the loop of `_check_field_formats` emits for one
visited entry, given a `re.match` oracle for the fixed format patterns. -/
def formatErrorsFor (reMatch : String → String → Bool)
    (curPath key : String) (v : PyVal) : List String :=
  fieldFormats.flatMap (fun f =>
    match v with
    | PyVal.str s =>
      if occursIn f.1.toList (pyLower key).toList && !reMatch f.2 s then
        [s!"Field '{curPath}' has invalid {f.1} format: {s}"]
      else []
    | _ => [])

mutual

/-- The `(current_path, key, value)` triples visited by the recursive
`check_recursive` walk shared by `_check_field_formats` and
`_check_value_ranges`: every entry of every nested dictionary, in
depth-first insertion order, with dotted paths for dictionary keys and
`[i]` suffixes for list positions. -/
def visitedEntries (path : String) : PyVal → List (String × String × PyVal)
  | PyVal.dict es => visitedEntriesOfDict path es
  | PyVal.list items => visitedEntriesOfList path 0 items
  | _ => []

/-- Entries visited inside one dictionary: each key/value pair, followed by
the entries of the value when it is itself a dictionary or list. -/
def visitedEntriesOfDict (path : String) :
    List (String × PyVal) → List (String × String × PyVal)
  | [] => []
  | (k, v) :: rest =>
    (joinPath path k, k, v) ::
      ((match v with
        | PyVal.dict _ => visitedEntries (joinPath path k) v
        | PyVal.list _ => visitedEntries (joinPath path k) v
        | _ => []) ++ visitedEntriesOfDict path rest)

/-- Entries visited inside one list: recurse into every element with an
indexed path. -/
def visitedEntriesOfList (path : String) (i : Nat) :
    List PyVal → List (String × String × PyVal)
  | [] => []
  | v :: rest =>
    visitedEntries s!"{path}[{i}]" v ++ visitedEntriesOfList path (i + 1) rest

end

/-- `_check_value_ranges`: range errors of every visited entry, in visit
order. -/
def checkValueRanges (d : PyVal) : List String :=
  (visitedEntries "" d).flatMap (fun e => rangeErrorsFor e.1 e.2.1 e.2.2)

/-- `_check_field_formats`: format errors of every visited entry, in visit
order. -/
def checkFieldFormats (reMatch : String → String → Bool)
    (d : PyVal) : List String :=
  (visitedEntries "" d).flatMap (fun e => formatErrorsFor reMatch e.1 e.2.1 e.2.2)

mutual

/-- `_find_field_in_data`: case-insensitive search for a key in nested
data.  A key match returns its value immediately (a found `None` value is
indistinguishable from absence, exactly as in Python); otherwise
dictionary / list values are searched recursively, moving on when the
recursive search comes back empty. -/
def findFieldInData (field : String) : PyVal → Option PyVal
  | PyVal.dict es => findFieldInEntries field es
  | PyVal.list items => findFieldInItems field items
  | _ => Option.none

/-- Search of one dictionary's entries by `_find_field_in_data`. -/
def findFieldInEntries (field : String) :
    List (String × PyVal) → Option PyVal
  | [] => Option.none
  | (k, v) :: rest =>
    if pyLower k = pyLower field then
      (match v with | PyVal.none => Option.none | _ => Option.some v)
    else
      match v with
      | PyVal.dict _ =>
        (match findFieldInData field v with
         | Option.some r => Option.some r
         | Option.none => findFieldInEntries field rest)
      | PyVal.list _ =>
        (match findFieldInData field v with
         | Option.some r => Option.some r
         | Option.none => findFieldInEntries field rest)
      | _ => findFieldInEntries field rest

/-- Search of one list's elements by `_find_field_in_data`. -/
def findFieldInItems (field : String) : List PyVal → Option PyVal
  | [] => Option.none
  | v :: rest =>
    match findFieldInData field v with
    | Option.some r => Option.some r
    | Option.none => findFieldInItems field rest

end

/-- `_check_required_fields`: warn when the recommended top-level fields
`name` / `version` are absent from the nested data. -/
def checkRequiredFields (d : PyVal) : List String :=
  ["name", "version"].flatMap (fun f =>
    match findFieldInData f d with
    | Option.none => [s!"Recommended field '{f}' is missing"]
    | Option.some _ => [])

/-- Errors and warnings of one validation pass. -/
structure CheckResult where
  errors : List String
  warnings : List String
deriving Repr, DecidableEq

/-- `_perform_general_validation` with the default rule selection (all three
checks enabled): required-field warnings, then field-format errors, then
value-range errors. -/
def performGeneralValidation (reMatch : String → String → Bool)
    (d : PyVal) : CheckResult :=
  { errors := checkFieldFormats reMatch d ++ checkValueRanges d
    warnings := checkRequiredFields d }

/-- C4: a visited key whose name contains "port" (case-insensitively) with
numeric value 70000 contributes an error naming that field's path and the
maximum 65535 to the general validation pass under the default rules; and
the same key with value 8080 contributes no error naming the 65535 maximum
(nor the port minimum). -/
theorem portRange_70000_errors_8080_clean :
    (∀ (reMatch : String → String → Bool) (d : PyVal) (p k : String),
      (p, k, PyVal.int 70000) ∈ visitedEntries "" d →
      occursIn "port".toList (pyLower k).toList = true →
      s!"Field '{p}' value 70000 is above maximum 65535" ∈
        (performGeneralValidation reMatch d).errors) ∧
    (∀ (p k : String) (msg : String),
      msg ∈ rangeErrorsFor p k (PyVal.int 8080) →
      msg ≠ s!"Field '{p}' value 8080 is above maximum 65535" ∧
      msg ≠ s!"Field '{p}' value 8080 is below minimum 1") := by
  constructor
  · intro reMatch d p k hmem hport
    have hport' : occursIn ['p', 'o', 'r', 't'] (pyLower k).data = true := hport
    have : s!"Field '{p}' value 70000 is above maximum 65535" ∈
        checkValueRanges d := by
      simp only [checkValueRanges, List.mem_flatMap]
      refine ⟨(p, k, PyVal.int 70000), hmem, ?_⟩
      simp [rangeErrorsFor, valueRanges, hport', pyNum]
      left
      simp only [String.append_assoc]
      congr 2
    simp [performGeneralValidation, this]
  · intro p k msg hmsg
    simp [rangeErrorsFor, valueRanges, pyNum] at hmsg
    rcases hmsg with ⟨-, rfl⟩ | ⟨-, rfl⟩ | ⟨-, rfl⟩ <;>
      constructor <;>
      · intro h
        have h2 := congrArg String.data h
        simp [String.data_append,
          show ∀ s : String, toString s = s from fun _ => rfl] at h2
        exact absurd h2 (by decide)

/-- A small configuration with a nested out-of-range port. -/
def demoPortConfig : PyVal :=
  PyVal.dict [("server", PyVal.dict [("Port", PyVal.int 70000)])]

/-- Witness for C4 at a concrete configuration: the nested key `Port` with
value 70000 yields the 65535 error, and a `port_timeout` key with value
8080 yields only the timeout-range error, which is not a 65535 one. -/
theorem portRange_70000_errors_8080_clean_witness :
    s!"Field 'server.Port' value 70000 is above maximum 65535" ∈
      (performGeneralValidation (fun _ _ => true) demoPortConfig).errors ∧
    (s!"Field 'conn' value 8080 is above maximum 3600" ≠
        s!"Field 'conn' value 8080 is above maximum 65535" ∧
      s!"Field 'conn' value 8080 is above maximum 3600" ≠
        s!"Field 'conn' value 8080 is below minimum 1") :=
  ⟨portRange_70000_errors_8080_clean.1 (fun _ _ => true) demoPortConfig
      "server.Port" "Port"
      (by simp [demoPortConfig, visitedEntries, visitedEntriesOfDict, joinPath])
      (by decide),
   portRange_70000_errors_8080_clean.2 "conn" "port_timeout"
      s!"Field 'conn' value 8080 is above maximum 3600"
      (by simp [rangeErrorsFor, valueRanges, pyNum, pyLower, occursIn]
          decide)⟩

/-! ## 2.8 AI-assisted troubleshooting advisor (`agents/troubleshooting_ai.py`)

Knowledge-base and pattern-similarity recommendation generation.  Floats
become `Rat`; generated UUIDs, timestamps and the free-text `reasoning`
strings (which embed `%.2f`-formatted floats) are not modelled.  The
model-backed source requires a language-model client and performs network
I/O; it is outside the model. -/

/-- A troubleshooting case (`TroubleshootingCase` dataclass; timestamps
elided). -/
structure TCase where
  case_id : String
  title : String
  description : String
  error_messages : List String
  severity : String
  status : String
  resolution : Option String := Option.none
  tags : List String := []
deriving Repr, DecidableEq

/-- A knowledge-base entry (`KnowledgeBaseEntry`; timestamps and the unused
usage counters elided). -/
structure KbEntry where
  entry_id : String
  title : String
  content : String
  category : String
  tags : List String
  error_patterns : List String
  solutions : List String
deriving Repr, DecidableEq

/-- One step dictionary of a recommendation (`status` is only present on
knowledge-base steps). -/
structure RecStep where
  step : Nat
  description : String
  status : Option String
deriving Repr, DecidableEq

/-- A recommendation (`TroubleshootingRecommendation`; id, timestamp and
`reasoning` elided). -/
structure Recommendation where
  case_id : String
  title : String
  description : String
  steps : List RecStep
  confidence_score : Rat
  source : String
  category : String
deriving Repr, DecidableEq

/-- Stable descending sort by a rational key: the behaviour of Python's
stable `list.sort(key=..., reverse=True)`. -/
def insertByDesc (key : α → Rat) (x : α) : List α → List α
  | [] => [x]
  | y :: t => if key y > key x then y :: insertByDesc key x t else x :: y :: t

/-- Stable descending insertion sort. -/
def sortByDesc (key : α → Rat) (l : List α) : List α :=
  l.foldr (insertByDesc key) []

/-- The nested match count of `_calculate_pattern_confidence` (also used by
`_find_relevant_kb_entries`): one hit per (message, pattern) pair where the
lowered pattern occurs in the lowered message. -/
def patternMatchCount (error_messages patterns : List String) : Nat :=
  (error_messages.map (fun e =>
    patterns.countP (fun p =>
      occursIn (pyLower p).toList (pyLower e).toList))).sum

/-- `_calculate_pattern_confidence`: the pair match count divided by the
number of patterns (0 when either list is empty). -/
def calculatePatternConfidence (error_messages patterns : List String) : Rat :=
  if error_messages.isEmpty || patterns.isEmpty then 0
  else if patterns.length > 0 then
    (patternMatchCount error_messages patterns : Rat) / (patterns.length : Rat)
  else 0

/-- `_find_relevant_kb_entries`: score each entry by tag overlap (distinct
common tags) plus the number of (message, pattern) substring hits, keep
positive scores, sort descending (stable) and take the top five. -/
def findRelevantKbEntries (knowledge_base : List KbEntry) (c : TCase) :
    List KbEntry :=
  let scored := knowledge_base.filterMap (fun entry =>
    let relevance :=
      (c.tags.dedup.filter (fun t => entry.tags.contains t)).length +
        patternMatchCount c.error_messages entry.error_patterns
    if relevance > 0 then Option.some (entry, (relevance : Rat)) else Option.none)
  ((sortByDesc (fun x => x.2) scored).take 5).map Prod.fst

/-- `_convert_solutions_to_steps`: number the solutions from 1, each with
status `pending`. -/
def convertSolutionsToSteps (solutions : List String) : List RecStep :=
  (List.range solutions.length).zipWith
    (fun i s => RecStep.mk (i + 1) s (Option.some "pending")) solutions

/-- `_generate_kb_recommendations`: for every relevant entry whose pattern
confidence exceeds 0.3, emit a `knowledge_base` recommendation carrying
that confidence and the entry's solutions as steps. -/
def generateKbRecommendations (knowledge_base : List KbEntry) (c : TCase) :
    List Recommendation :=
  (findRelevantKbEntries knowledge_base c).filterMap (fun entry =>
    let confidence := calculatePatternConfidence c.error_messages entry.error_patterns
    if confidence > 3 / 10 then
      Option.some
        { case_id := c.case_id
          title := "KB: " ++ entry.title
          description := entry.content
          steps := convertSolutionsToSteps entry.solutions
          confidence_score := confidence
          source := "knowledge_base"
          category := "diagnosis" }
    else Option.none)

/-- A case's error-message set: the distinct lower-cased messages. -/
def caseErrorSet (c : TCase) : List String :=
  (c.error_messages.map pyLower).dedup

/-- Size of the intersection of two cases' error-message sets. -/
def caseIntersection (c1 c2 : TCase) : Nat :=
  ((caseErrorSet c1).filter (fun e => (caseErrorSet c2).contains e)).length

/-- Size of the union of two cases' error-message sets. -/
def caseUnion (c1 c2 : TCase) : Nat :=
  ((caseErrorSet c1) ++ (caseErrorSet c2)).dedup.length

/-- `_calculate_case_similarity`: Jaccard similarity of the two cases'
lower-cased error-message sets (0 when either set is empty). -/
def calculateCaseSimilarity (c1 c2 : TCase) : Rat :=
  if (caseErrorSet c1).isEmpty || (caseErrorSet c2).isEmpty then 0
  else if caseUnion c1 c2 > 0 then
    (caseIntersection c1 c2 : Rat) / (caseUnion c1 c2 : Rat)
  else 0

/-- `_find_similar_cases`: every other case with similarity above 0.3, in
case-map order, sorted descending by similarity (stable), top three. -/
def findSimilarCases (cases : List (String × TCase)) (c : TCase) :
    List (String × Rat) :=
  let similar := cases.filterMap (fun kv =>
    if kv.1 = c.case_id then Option.none
    else
      let similarity := calculateCaseSimilarity c kv.2
      if similarity > 3 / 10 then Option.some (kv.1, similarity) else Option.none)
  (sortByDesc (fun x => x.2) similar).take 3

/-- `_generate_pattern_recommendations`: for every similar case with
similarity above 0.5 that has a recorded resolution, emit a single-step
`pattern_match` recommendation quoting the resolution, with confidence
equal to the similarity. -/
def generatePatternRecommendations (cases : List (String × TCase))
    (c : TCase) : List Recommendation :=
  (findSimilarCases cases c).filterMap (fun cs =>
    if cs.2 > (1 : Rat) / 2 then
      match (cases.find? (fun kv => kv.1 == cs.1)).map Prod.snd with
      | Option.some similarCase =>
        match similarCase.resolution with
        | Option.some r =>
          Option.some
            { case_id := c.case_id
              title := "Similar Case Resolution: " ++ similarCase.title
              description := s!"Based on similar case {cs.1}"
              steps := [RecStep.mk 1 r Option.none]
              confidence_score := cs.2
              source := "pattern_match"
              category := "fix" }
        | Option.none => Option.none
      | Option.none => Option.none
    else Option.none)

/-- A knowledge-base entry with a single error pattern, for the C6
counterexample. -/
def demoKbEntry : KbEntry :=
  { entry_id := "kb_001", title := "Connection Timeout",
    content := "Troubleshooting connection timeouts", category := "network",
    tags := [], error_patterns := ["timeout"],
    solutions := ["Increase the timeout", "Check the network"] }

/-- A case whose two error messages both contain the entry's single
pattern. -/
def demoTimeoutCase : TCase :=
  { case_id := "case_1", title := "timeouts", description := "two timeouts",
    error_messages := ["connection timeout on read", "timeout while writing"],
    severity := "high", status := "open" }

/-- Counterexample to C6 as stated: with one knowledge-base pattern matched
by two distinct case error messages, the knowledge-base pattern confidence
is 2, and the emitted recommendation carries `confidence_score = 2 > 1`,
outside `[0,1]`. -/
theorem kbConfidence_exceeds_one_counterexample :
    calculatePatternConfidence demoTimeoutCase.error_messages
        demoKbEntry.error_patterns = 2 ∧
    (generateKbRecommendations [demoKbEntry] demoTimeoutCase).map
        (fun r => r.confidence_score) = [2] ∧ ¬ ((2 : Rat) ≤ 1) := by
  have hm : patternMatchCount demoTimeoutCase.error_messages
      demoKbEntry.error_patterns = 2 := by decide
  have hc : calculatePatternConfidence demoTimeoutCase.error_messages
      demoKbEntry.error_patterns = 2 := by
    unfold calculatePatternConfidence
    rw [hm]
    norm_num [demoKbEntry, demoTimeoutCase]
  have hrel : findRelevantKbEntries [demoKbEntry] demoTimeoutCase =
      [demoKbEntry] := by
    unfold findRelevantKbEntries
    simp only [List.filterMap_cons, List.filterMap_nil, hm]
    norm_num [demoTimeoutCase, demoKbEntry, sortByDesc, insertByDesc]
  refine ⟨hc, ?_, by norm_num⟩
  unfold generateKbRecommendations
  rw [hrel]
  simp only [List.filterMap_cons, List.filterMap_nil, hc]
  rw [if_pos (by norm_num)]
  simp

/-- C6 amended: the knowledge-base pattern confidence is the number of
(message, pattern) substring pairs over the pattern count, hence
nonnegative and at most the number of case error messages (so it lies in
`[0,1]` whenever the case has at most one error message); the
pattern-match source's confidence (the Jaccard case similarity) always
lies in `[0,1]`. -/
theorem patternConfidence_bounds (error_messages patterns : List String)
    (c1 c2 : TCase) :
    0 ≤ calculatePatternConfidence error_messages patterns ∧
    calculatePatternConfidence error_messages patterns ≤
      (error_messages.length : Rat) ∧
    (error_messages.length ≤ 1 →
      calculatePatternConfidence error_messages patterns ≤ 1) ∧
    0 ≤ calculateCaseSimilarity c1 c2 ∧ calculateCaseSimilarity c1 c2 ≤ 1 := by
  have hcount : patternMatchCount error_messages patterns ≤
      error_messages.length * patterns.length := by
    unfold patternMatchCount
    calc (error_messages.map (fun e =>
        patterns.countP (fun p =>
          occursIn (pyLower p).toList (pyLower e).toList))).sum ≤
        (error_messages.map (fun e =>
          patterns.countP (fun p =>
            occursIn (pyLower p).toList (pyLower e).toList))).length •
          patterns.length := by
          apply List.sum_le_card_nsmul
          intro x hx
          simp only [List.mem_map] at hx
          obtain ⟨e, -, rfl⟩ := hx
          exact List.countP_le_length _
      _ = error_messages.length * patterns.length := by
          simp [List.length_map, smul_eq_mul]
  have hconf : 0 ≤ calculatePatternConfidence error_messages patterns ∧
      calculatePatternConfidence error_messages patterns ≤
        (error_messages.length : Rat) := by
    unfold calculatePatternConfidence
    split_ifs with h1 h2
    · exact ⟨le_rfl, by positivity⟩
    · constructor
      · positivity
      · rw [div_le_iff₀ (by exact_mod_cast h2)]
        calc ((patternMatchCount error_messages patterns : Nat) : Rat) ≤
            ((error_messages.length * patterns.length : Nat) : Rat) := by
              exact_mod_cast hcount
          _ = (error_messages.length : Rat) * (patterns.length : Rat) := by
              push_cast; ring
    · exact ⟨le_rfl, by positivity⟩
  have hinter : caseIntersection c1 c2 ≤ caseUnion c1 c2 := by
    have h1 : caseIntersection c1 c2 ≤ (caseErrorSet c1).length :=
      List.length_filter_le _ _
    have h2 : (caseErrorSet c1).length ≤ caseUnion c1 c2 := by
      have hnd : (caseErrorSet c1).Nodup := List.nodup_dedup _
      have hcard1 : (caseErrorSet c1).toFinset.card = (caseErrorSet c1).length := by
        rw [List.card_toFinset, List.dedup_eq_self.mpr hnd]
      have hcard2 : ((caseErrorSet c1) ++ (caseErrorSet c2)).toFinset.card =
          caseUnion c1 c2 := by
        rw [List.card_toFinset]; rfl
      rw [← hcard1, ← hcard2]
      apply Finset.card_le_card
      rw [List.toFinset_append]
      exact Finset.subset_union_left
    exact le_trans h1 h2
  have hsim : 0 ≤ calculateCaseSimilarity c1 c2 ∧
      calculateCaseSimilarity c1 c2 ≤ 1 := by
    unfold calculateCaseSimilarity
    split_ifs with h1 h2
    · exact ⟨le_rfl, by norm_num⟩
    · constructor
      · positivity
      · rw [div_le_one (by exact_mod_cast h2)]
        exact_mod_cast hinter
    · exact ⟨le_rfl, by norm_num⟩
  refine ⟨hconf.1, hconf.2, ?_, hsim.1, hsim.2⟩
  intro hlen
  calc calculatePatternConfidence error_messages patterns ≤
      (error_messages.length : Rat) := hconf.2
    _ ≤ 1 := by exact_mod_cast hlen

/-- Witness for the amended C6 at concrete inputs: with a single error
message the knowledge-base pattern confidence lies in `[0,1]`, and a
concrete case similarity lies in `[0,1]`. -/
theorem patternConfidence_bounds_witness :
    0 ≤ calculatePatternConfidence ["timeout problem"] ["timeout", "dns"] ∧
    calculatePatternConfidence ["timeout problem"] ["timeout", "dns"] ≤ 1 ∧
    0 ≤ calculateCaseSimilarity demoTimeoutCase demoTimeoutCase ∧
    calculateCaseSimilarity demoTimeoutCase demoTimeoutCase ≤ 1 := by
  have h := patternConfidence_bounds ["timeout problem"] ["timeout", "dns"]
    demoTimeoutCase demoTimeoutCase
  exact ⟨h.1, h.2.2.1 (by norm_num), h.2.2.2.1, h.2.2.2.2⟩

/-- C7 amended: for every similar case the advisor keeps (Jaccard
similarity above 0.3, top three) whose similarity moreover exceeds 0.5 and
that has a recorded resolution, a single-step `pattern_match`
recommendation quoting that resolution is emitted, with confidence equal
to the similarity value.  (Kept cases with similarity in (0.3, 0.5] are
dropped by `_generate_pattern_recommendations`.) -/
theorem patternRecommendation_emitted (cases : List (String × TCase))
    (c oc : TCase) (cid : String) (s : Rat) (r : String)
    (hmem : (cid, s) ∈ findSimilarCases cases c)
    (hs : s > (1 : Rat) / 2)
    (hfind : (cases.find? (fun kv => kv.1 == cid)).map Prod.snd =
      Option.some oc)
    (hres : oc.resolution = Option.some r) :
    ∃ rec ∈ generatePatternRecommendations cases c,
      rec.source = "pattern_match" ∧ rec.confidence_score = s ∧
      rec.steps = [RecStep.mk 1 r Option.none] ∧ rec.category = "fix" := by
  refine ⟨{ case_id := c.case_id
            title := "Similar Case Resolution: " ++ oc.title
            description := s!"Based on similar case {cid}"
            steps := [RecStep.mk 1 r Option.none]
            confidence_score := s
            source := "pattern_match"
            category := "fix" }, ?_, rfl, rfl, rfl, rfl⟩
  unfold generatePatternRecommendations
  apply List.mem_filterMap.mpr
  refine ⟨(cid, s), hmem, ?_⟩
  rw [if_pos hs, hfind]
  simp [hres]

/-- The reference case for the C7 counterexample. -/
def demoCaseA : TCase :=
  { case_id := "case_a", title := "case A", description := "two errors",
    error_messages := ["e1", "e2"], severity := "high", status := "open" }

/-- A resolved case sharing two of five error messages with `demoCaseA`
(Jaccard similarity 2/5, i.e. above 0.3 but not above 0.5). -/
def demoCaseB : TCase :=
  { case_id := "case_b", title := "case B", description := "five errors",
    error_messages := ["e1", "e2", "x3", "x4", "x5"],
    severity := "high", status := "resolved",
    resolution := Option.some "Restart the database" }

/-- The advisor's case map for the C7 counterexample. -/
def demoCases : List (String × TCase) :=
  [("case_a", demoCaseA), ("case_b", demoCaseB)]

/-- Counterexample to C7 as stated: `case_b` is kept as a similar case
(similarity 2/5 > 0.3) and has a recorded resolution, yet no
`pattern_match` recommendation at all is emitted, because
`_generate_pattern_recommendations` additionally requires
similarity > 0.5. -/
theorem patternRecommendation_threshold_counterexample :
    findSimilarCases demoCases demoCaseA = [("case_b", (2 : Rat) / 5)] ∧
    ((2 : Rat) / 5 > 3 / 10) ∧
    demoCaseB.resolution = Option.some "Restart the database" ∧
    generatePatternRecommendations demoCases demoCaseA = [] := by
  have hsim : calculateCaseSimilarity demoCaseA demoCaseB = 2 / 5 := by
    unfold calculateCaseSimilarity
    rw [show (caseErrorSet demoCaseA).isEmpty = false from by decide,
        show (caseErrorSet demoCaseB).isEmpty = false from by decide,
        show caseIntersection demoCaseA demoCaseB = 2 from by decide,
        show caseUnion demoCaseA demoCaseB = 5 from by decide]
    norm_num
  have hfindsim : findSimilarCases demoCases demoCaseA =
      [("case_b", (2 : Rat) / 5)] := by
    unfold findSimilarCases
    simp only [demoCases, List.filterMap_cons, List.filterMap_nil]
    rw [if_pos (show "case_a" = demoCaseA.case_id from rfl),
        if_neg (show ¬ "case_b" = demoCaseA.case_id from by decide), hsim,
        if_pos (show (2 : Rat) / 5 > 3 / 10 from by norm_num)]
    simp [sortByDesc, insertByDesc]
  refine ⟨hfindsim, by norm_num, rfl, ?_⟩
  unfold generatePatternRecommendations
  rw [hfindsim]
  simp only [List.filterMap_cons, List.filterMap_nil]
  rw [if_neg (show ¬ ((2 : Rat) / 5 > 1 / 2) from by norm_num)]

/-- A case with three error messages, for the C7 witness. -/
def demoCaseC : TCase :=
  { case_id := "case_c", title := "case C", description := "three errors",
    error_messages := ["e1", "e2", "e3"], severity := "high", status := "open" }

/-- A resolved case with the same three error messages (similarity 1). -/
def demoCaseD : TCase :=
  { case_id := "case_d", title := "case D", description := "same errors",
    error_messages := ["e1", "e2", "e3"],
    severity := "high", status := "resolved",
    resolution := Option.some "Reboot the node" }

/-- Case map for the C7 witness. -/
def demoCasesHigh : List (String × TCase) :=
  [("case_c", demoCaseC), ("case_d", demoCaseD)]

/-- Witness for the amended C7 at a concrete state: a similar case with
similarity 1 and a resolution yields a `pattern_match` recommendation with
that confidence and the quoted resolution. -/
theorem patternRecommendation_emitted_witness :
    ∃ rec ∈ generatePatternRecommendations demoCasesHigh demoCaseC,
      rec.source = "pattern_match" ∧ rec.confidence_score = 1 ∧
      rec.steps = [RecStep.mk 1 "Reboot the node" Option.none] ∧
      rec.category = "fix" := by
  have hsim : calculateCaseSimilarity demoCaseC demoCaseD = 1 := by
    unfold calculateCaseSimilarity
    rw [show (caseErrorSet demoCaseC).isEmpty = false from by decide,
        show (caseErrorSet demoCaseD).isEmpty = false from by decide,
        show caseIntersection demoCaseC demoCaseD = 3 from by decide,
        show caseUnion demoCaseC demoCaseD = 3 from by decide]
    norm_num
  have hmem : ("case_d", (1 : Rat)) ∈ findSimilarCases demoCasesHigh demoCaseC := by
    unfold findSimilarCases
    simp only [demoCasesHigh, List.filterMap_cons, List.filterMap_nil]
    rw [if_pos (show "case_c" = demoCaseC.case_id from rfl),
        if_neg (show ¬ "case_d" = demoCaseC.case_id from by decide), hsim,
        if_pos (show (1 : Rat) > 3 / 10 from by norm_num)]
    simp [sortByDesc, insertByDesc]
  exact patternRecommendation_emitted demoCasesHigh demoCaseC demoCaseD
    "case_d" 1 "Reboot the node" hmem (by norm_num) (by decide) rfl

/-! ## 2.4 Bulk link validator (`validators/link_validator.py`)

Pure embedding of `_validate_single_link` / `_validate_links_internal` over
an HTTP oracle.  Wall-clock response times are oracle-provided numbers; the
optional content analysis (network body reads), the failure-pattern
breakdown and the recommendation text are not needed by the claim and are
omitted; `_is_valid_url_format` (backed by the external `validators`
library) is an oracle. -/

/-- What the HTTP GET of one URL does: a response with a status code and
headers, a timeout, an `aiohttp.ClientError`, or another exception. -/
inductive FetchOutcome where
  | response (statusCode : Nat) (finalUrl contentType contentLength server : String)
      (respTimeMs : Rat)
  | timeout
  | clientError (msg : String) (respTimeMs : Rat)
  | otherError (msg : String) (respTimeMs : Rat)

/-- One gathered task: either the fetch completed (its result dictionary)
or the task itself raised (turned into an exception entry by
`asyncio.gather(..., return_exceptions=True)`). -/
inductive TaskOutcome where
  | completed (f : FetchOutcome)
  | raised (msg : String)

/-- One per-URL result dictionary of the bulk validator (fields absent from
a given code path are `Option.none`). -/
structure LinkResult where
  url : String
  status : String
  error : Option String := Option.none
  status_code : Option Nat := Option.none
  response_time : Rat := 0
  final_url : Option String := Option.none
  redirected : Option Bool := Option.none
  content_type : Option String := Option.none
  content_length : Option String := Option.none
  server : Option String := Option.none
deriving Repr, DecidableEq

/-- `_validate_single_link`: classify one fetched URL by HTTP status code
(2xx success, 3xx redirect, 4xx client error, 5xx server error, otherwise
unknown), or map the caught exception to `timeout` / `connection_error` /
`error`. -/
def validateSingleLink (url : String) (timeout : Nat)
    (f : FetchOutcome) : LinkResult :=
  match f with
  | FetchOutcome.response code furl ct cl srv t =>
    let base : LinkResult :=
      { url := url, status := "", status_code := Option.some code,
        response_time := t, final_url := Option.some furl,
        redirected := Option.some (furl ≠ url),
        content_type := Option.some ct, content_length := Option.some cl,
        server := Option.some srv }
    if 200 ≤ code ∧ code < 300 then { base with status := "success" }
    else if 300 ≤ code ∧ code < 400 then { base with status := "redirect" }
    else if 400 ≤ code ∧ code < 500 then
      { base with status := "client_error",
                  error := Option.some s!"HTTP {code}: Client Error" }
    else if 500 ≤ code ∧ code < 600 then
      { base with status := "server_error",
                  error := Option.some s!"HTTP {code}: Server Error" }
    else
      { base with status := "unknown_status",
                  error := Option.some s!"HTTP {code}: Unknown Status" }
  | FetchOutcome.timeout =>
    { url := url, status := "timeout",
      error := Option.some s!"Request timed out after {timeout} seconds",
      response_time := (timeout * 1000 : Nat) }
  | FetchOutcome.clientError m t =>
    { url := url, status := "connection_error",
      error := Option.some ("Connection error: " ++ m), response_time := t }
  | FetchOutcome.otherError m t =>
    { url := url, status := "error",
      error := Option.some ("Unexpected error: " ++ m), response_time := t }

/-- A result entry counts as successful when its status is `success` or
`redirect`. -/
def isSuccessful (r : LinkResult) : Bool :=
  r.status == "success" || r.status == "redirect"

/-- Summary dictionary of a bulk validation run (`success_rate`,
`average_response_time` and the timestamp are derived display values not
needed by the claim). -/
structure LinkSummary where
  total_links : Nat
  successful : Nat
  failed : Nat
deriving Repr, DecidableEq

/-- Return value of `_validate_links_internal`. -/
structure LinkValidationOutput where
  summary : LinkSummary
  successful_validations : List LinkResult
  failed_validations : List LinkResult
deriving Repr

/-- The failure entry for a URL of invalid format. -/
def invalidFormatEntry (url : String) : LinkResult :=
  { url := url, status := "invalid_format",
    error := Option.some "Invalid URL format", response_time := 0 }

/-- The failure entry for a task that raised. -/
def raisedEntry (msg : String) : LinkResult :=
  { url := "unknown", status := "error", error := Option.some msg,
    response_time := 0 }

/-- `_validate_links_internal`: split the input into format-valid and
format-invalid URLs, validate the valid ones through the oracle, partition
the gathered results into successful (`success` / `redirect`) and failed
ones, append the invalid-format entries to the failed side, and summarize
the counts. -/
def validateLinksInternal (isValidUrlFormat : String → Bool)
    (fetch : String → TaskOutcome) (links : List String)
    (timeout : Nat) : LinkValidationOutput :=
  let validUrls := links.filter isValidUrlFormat
  let invalidUrls := (links.filter (fun l => !isValidUrlFormat l)).map
    invalidFormatEntry
  let results := validUrls.map (fun url =>
    match fetch url with
    | TaskOutcome.completed f => validateSingleLink url timeout f
    | TaskOutcome.raised m => raisedEntry m)
  let successfulValidations := results.filter isSuccessful
  let failedValidations :=
    results.filter (fun r => !isSuccessful r) ++ invalidUrls
  { summary :=
      { total_links := links.length
        successful := successfulValidations.length
        failed := failedValidations.length }
    successful_validations := successfulValidations
    failed_validations := failedValidations }

/-- C2: a 404 response yields status `client_error` with an error message
mentioning "404"; a 200 response yields `success`; and in every run the
summary's `successful` equals the number of returned result entries whose
status is `success` or `redirect`, while `failed` equals the number of
input URLs minus `successful` (invalid-format inputs and raised tasks on
the failed side). -/
theorem linkValidation_classification_and_counts
    (isValidUrlFormat : String → Bool) (fetch : String → TaskOutcome)
    (links : List String) (timeout : Nat) :
    (∀ url furl ct cl srv t,
      (validateSingleLink url timeout
          (FetchOutcome.response 404 furl ct cl srv t)).status =
        "client_error" ∧
      (validateSingleLink url timeout
          (FetchOutcome.response 404 furl ct cl srv t)).error =
        Option.some "HTTP 404: Client Error" ∧
      occursIn "404".toList "HTTP 404: Client Error".toList = true) ∧
    (∀ url furl ct cl srv t,
      (validateSingleLink url timeout
          (FetchOutcome.response 200 furl ct cl srv t)).status = "success") ∧
    ((validateLinksInternal isValidUrlFormat fetch links timeout).summary.successful =
      ((validateLinksInternal isValidUrlFormat fetch links timeout).successful_validations ++
        (validateLinksInternal isValidUrlFormat fetch links timeout).failed_validations).countP
          isSuccessful) ∧
    (validateLinksInternal isValidUrlFormat fetch links timeout).summary.failed =
      links.length -
        (validateLinksInternal isValidUrlFormat fetch links timeout).summary.successful ∧
    (validateLinksInternal isValidUrlFormat fetch links timeout).summary.failed +
        (validateLinksInternal isValidUrlFormat fetch links timeout).summary.successful =
      links.length := by
  refine ⟨?_, ?_, ?_, ?_, ?_⟩
  · intro url furl ct cl srv t
    refine ⟨?_, ?_, by decide⟩ <;>
      simp [validateSingleLink, show ¬ (200 ≤ 404 ∧ 404 < 300) from by omega,
        show ¬ (300 ≤ 404 ∧ 404 < 400) from by omega,
        show (400 ≤ 404 ∧ 404 < 500) from by omega] <;>
      decide
  · intro url furl ct cl srv t
    simp [validateSingleLink, show (200 ≤ 200 ∧ 200 < 300) from by omega]
  · simp only [validateLinksInternal, List.countP_append]
    have h1 : ∀ (l : List LinkResult),
        (l.filter isSuccessful).countP isSuccessful =
          (l.filter isSuccessful).length :=
      fun l => List.countP_eq_length.mpr (fun r hr => List.of_mem_filter hr)
    have h2 : ∀ (l : List LinkResult),
        (l.filter (fun r => !isSuccessful r)).countP isSuccessful = 0 :=
      fun l => List.countP_eq_zero.mpr (fun r hr => by
        have := List.of_mem_filter hr
        simp only [Bool.not_eq_true'] at this
        simp [this])
    have h3 : ∀ (us : List String),
        (us.map invalidFormatEntry).countP isSuccessful = 0 :=
      fun us => List.countP_eq_zero.mpr (by
        intro r hr
        simp only [List.mem_map] at hr
        obtain ⟨u, -, rfl⟩ := hr
        simp [invalidFormatEntry, isSuccessful])
    rw [h1, h2, h3]
    omega
  · have hpart : links.length =
        (links.filter isValidUrlFormat).length +
          (links.filter (fun l => !isValidUrlFormat l)).length :=
      List.length_eq_length_filter_add _
    simp only [validateLinksInternal, List.length_append, List.length_map]
    have h3 : ((links.filter isValidUrlFormat).map (fun url =>
        match fetch url with
        | TaskOutcome.completed f => validateSingleLink url timeout f
        | TaskOutcome.raised m => raisedEntry m)).length =
        (((links.filter isValidUrlFormat).map (fun url =>
          match fetch url with
          | TaskOutcome.completed f => validateSingleLink url timeout f
          | TaskOutcome.raised m => raisedEntry m)).filter isSuccessful).length +
        (((links.filter isValidUrlFormat).map (fun url =>
          match fetch url with
          | TaskOutcome.completed f => validateSingleLink url timeout f
          | TaskOutcome.raised m => raisedEntry m)).filter
            (fun r => !isSuccessful r)).length :=
      List.length_eq_length_filter_add _
    rw [List.length_map] at h3
    omega
  · have hpart : links.length =
        (links.filter isValidUrlFormat).length +
          (links.filter (fun l => !isValidUrlFormat l)).length :=
      List.length_eq_length_filter_add _
    simp only [validateLinksInternal, List.length_append, List.length_map]
    have h3 : ((links.filter isValidUrlFormat).map (fun url =>
        match fetch url with
        | TaskOutcome.completed f => validateSingleLink url timeout f
        | TaskOutcome.raised m => raisedEntry m)).length =
        (((links.filter isValidUrlFormat).map (fun url =>
          match fetch url with
          | TaskOutcome.completed f => validateSingleLink url timeout f
          | TaskOutcome.raised m => raisedEntry m)).filter isSuccessful).length +
        (((links.filter isValidUrlFormat).map (fun url =>
          match fetch url with
          | TaskOutcome.completed f => validateSingleLink url timeout f
          | TaskOutcome.raised m => raisedEntry m)).filter
            (fun r => !isSuccessful r)).length :=
      List.length_eq_length_filter_add _
    rw [List.length_map] at h3
    omega

/-! ## 2.3 PDF analyzer severity analysis (`processors/pdf_analyzer.py`)

Every regex of the analyzer's error/severity taxonomy is an
case-insensitive alternation of literal fragments separated by `.*`
(applied per line, so `.` never meets a newline).  `re.search` for such a
pattern succeeds exactly when some alternative's fragments occur in order;
scanning greedily from the first occurrence of each fragment is equivalent,
because fragments have fixed length. -/

/-- Python whitespace (`str.strip` / regex `\s`, ASCII range). -/
def isPySpace (c : Char) : Bool :=
  c = ' ' || c = '\t' || c = '\n' || c = '\r' || c = '\x0b' || c = '\x0c'

/-- Python `str.strip()`. -/
def pyStrip (s : String) : String :=
  String.mk (((s.data.dropWhile isPySpace).reverse.dropWhile isPySpace).reverse)

/-- Remainder of `hay` after the first occurrence of `needle`
(`Option.none` when `needle` does not occur). -/
def dropAfterFirst (needle : List Char) : List Char → Option (List Char)
  | [] => if needle.isEmpty then Option.some [] else Option.none
  | c :: t =>
    if needle.isPrefixOf (c :: t) then Option.some ((c :: t).drop needle.length)
    else dropAfterFirst needle t

/-- The fragments occur in `s`, in order, without overlapping. -/
def fragsMatch : List (List Char) → List Char → Bool
  | [], _ => true
  | f :: fs, s =>
    match dropAfterFirst f s with
    | Option.some rest => fragsMatch fs rest
    | Option.none => false

/-- `re.search` of a case-insensitive alternation of `.*`-separated literal
fragments against one line. -/
def searchPattern (alts : List (List String)) (line : String) : Bool :=
  alts.any (fun alt =>
    fragsMatch (alt.map (fun f => (pyLower f).toList)) (pyLower line).toList)

/-- The `severity_patterns` table: four severity names, each with its
keyword alternatives. -/
def severityPatterns : List (String × List (List String)) :=
  [("critical", [["critical"], ["fatal"], ["severe"], ["emergency"], ["urgent"]]),
   ("high", [["high"], ["major"], ["important"], ["significant"]]),
   ("medium", [["medium"], ["moderate"], ["warning"], ["caution"]]),
   ("low", [["low"], ["minor"], ["info"], ["information"], ["notice"]])]

/-- The `error_patterns` taxonomy: four categories of five named patterns,
each an alternation of `.*`-separated fragments. -/
def errorPatterns : List (String × List (String × List (List String))) :=
  [("network",
    [("connection_timeout",
      [["connection", "timeout"], ["timeout", "connection"], ["network", "timeout"]]),
     ("connection_refused",
      [["connection", "refused"], ["refused", "connection"], ["cannot", "connect"]]),
     ("dns_error",
      [["dns", "error"], ["name", "resolution"], ["host", "not", "found"],
       ["nslookup", "failed"]]),
     ("port_unreachable",
      [["port", "unreachable"], ["unreachable", "port"], ["port", "closed"]]),
     ("ssl_error",
      [["ssl", "error"], ["certificate", "error"], ["handshake", "failed"],
       ["tls", "error"]])]),
   ("database",
    [("connection_failed",
      [["database", "connection", "failed"], ["failed", "connect", "database"],
       ["db", "connection", "error"]]),
     ("authentication_error",
      [["authentication", "failed"], ["login", "failed"],
       ["invalid", "credentials"], ["access", "denied"]]),
     ("query_error",
      [["sql", "error"], ["query", "failed"], ["syntax", "error"],
       ["invalid", "query"]]),
     ("timeout_error",
      [["query", "timeout"], ["command", "timeout"], ["execution", "timeout"]]),
     ("deadlock",
      [["deadlock"], ["lock", "timeout"], ["blocking"],
       ["resource", "unavailable"]])]),
   ("system",
    [("memory_error",
      [["out", "of", "memory"], ["memory", "error"], ["insufficient", "memory"],
       ["oom"]]),
     ("disk_error",
      [["disk", "full"], ["no", "space"], ["disk", "error"], ["storage", "full"]]),
     ("permission_error",
      [["permission", "denied"], ["access", "denied"], ["unauthorized"],
       ["forbidden"]]),
     ("service_error",
      [["service", "failed"], ["service", "stopped"], ["daemon", "error"],
       ["process", "crashed"]]),
     ("configuration_error",
      [["config", "error"], ["configuration", "invalid"], ["setting", "error"],
       ["parameter", "invalid"]])]),
   ("application",
    [("startup_error",
      [["startup", "failed"], ["initialization", "error"], ["boot", "error"],
       ["launch", "failed"]]),
     ("runtime_error",
      [["runtime", "error"], ["execution", "error"], ["application", "error"],
       ["crash"]]),
     ("dependency_error",
      [["dependency", "missing"], ["module", "not", "found"],
       ["library", "error"], ["import", "error"]]),
     ("version_conflict",
      [["version", "conflict"], ["compatibility", "error"],
       ["version", "mismatch"]]),
     ("license_error",
      [["license", "error"], ["license", "expired"], ["activation", "failed"],
       ["invalid", "license"]])])]

/-- The alternatives of the `database.deadlock` pattern. -/
def deadlockAlts : List (List String) :=
  [["deadlock"], ["lock", "timeout"], ["blocking"], ["resource", "unavailable"]]

/-- One recorded pattern hit: 1-based line number, stripped text, ±2-line
context window. -/
structure ErrorMatch where
  line_number : Nat
  text : String
  context : List String
deriving Repr, DecidableEq

/-- The per-pattern record of `detected_errors` (`hits` embeds the record's
`matches` list). -/
structure ErrorData where
  count : Nat
  hits : List ErrorMatch
deriving Repr, DecidableEq

/-- `_get_context_lines`: the window `lines[max(0, i-2) : min(len, i+3)]`. -/
def getContextLines (lines : List String) (lineIndex : Nat) : List String :=
  (lines.drop (lineIndex - 2)).take ((min lines.length (lineIndex + 3)) - (lineIndex - 2))

/-- The hits of one pattern across the document's lines (1-based line
numbers, as `enumerate(lines, 1)`). -/
def matchesFor (alts : List (List String)) (lines : List String) :
    List ErrorMatch :=
  lines.enum.filterMap (fun il =>
    if searchPattern alts il.2 then
      Option.some (ErrorMatch.mk (il.1 + 1) (pyStrip il.2) (getContextLines lines il.1))
    else Option.none)

/-- The non-empty pattern records of one category. -/
def categoryErrors (lines : List String)
    (pats : List (String × List (List String))) : List (String × ErrorData) :=
  pats.filterMap (fun p =>
    let ms := matchesFor p.2 lines
    if ms.isEmpty then Option.none
    else Option.some (p.1, ErrorData.mk ms.length ms))

/-- Which categories `_extract_errors` scans: the one named by a non-empty
`error_type` that exists in the table, otherwise all of them. -/
def patternsToCheck (error_type : Option String) :
    List (String × List (String × List (List String))) :=
  match error_type with
  | Option.some t =>
    if t ≠ "" ∧ (errorPatterns.find? (fun cp => cp.1 == t)).isSome then
      errorPatterns.filter (fun cp => cp.1 == t)
    else errorPatterns
  | Option.none => errorPatterns

/-- The `detected_errors` map of `_extract_errors`: per category, the
non-empty pattern records (empty categories omitted). -/
def detectedErrors (lines : List String) (error_type : Option String) :
    List (String × List (String × ErrorData)) :=
  (patternsToCheck error_type).filterMap (fun cp =>
    let ce := categoryErrors lines cp.2
    if ce.isEmpty then Option.none else Option.some (cp.1, ce))

/-- One entry of `severity_details` (`error_type` is only present on
entries produced by the fallback). -/
structure SeverityDetail where
  line_number : Nat
  severity : String
  error_type : Option String
  text : String
deriving Repr, DecidableEq

/-- The `severity_analysis` value: the four distribution counters and the
detail list. -/
structure SeverityAnalysis where
  critical : Nat
  high : Nat
  medium : Nat
  low : Nat
  details : List SeverityDetail
deriving Repr, DecidableEq

/-- The (line number, severity, stripped text) hits of the explicit
per-line severity scan, in scan order (lines outer, severities inner). -/
def explicitSeverityHits (lines : List String) : List (Nat × String × String) :=
  lines.enum.flatMap (fun il =>
    severityPatterns.filterMap (fun sp =>
      if searchPattern sp.2 il.2 then
        Option.some (il.1 + 1, sp.1, pyStrip il.2)
      else Option.none))

/-- Distribution and details of the explicit severity scan. -/
def severityFromHits (hits : List (Nat × String × String)) : SeverityAnalysis :=
  { critical := hits.countP (fun h => h.2.1 == "critical")
    high := hits.countP (fun h => h.2.1 == "high")
    medium := hits.countP (fun h => h.2.1 == "medium")
    low := hits.countP (fun h => h.2.1 == "low")
    details := hits.map (fun h =>
      SeverityDetail.mk h.1 h.2.1 Option.none h.2.2) }

/-- The static `severity_mapping` table of `_infer_severity_from_errors`. -/
def severityMapping : List (String × List (String × String)) :=
  [("network",
    [("connection_timeout", "medium"), ("connection_refused", "high"),
     ("dns_error", "medium"), ("ssl_error", "high")]),
   ("database",
    [("connection_failed", "high"), ("authentication_error", "high"),
     ("deadlock", "critical")]),
   ("system",
    [("memory_error", "critical"), ("disk_error", "high"),
     ("permission_error", "medium"), ("service_error", "high")]),
   ("application",
    [("startup_error", "high"), ("runtime_error", "medium"),
     ("dependency_error", "high")])]

/-- `severity_mapping.get(category, {}).get(error_type, 'medium')`. -/
def mappedSeverity (category error_type : String) : String :=
  match (severityMapping.find? (fun cm => cm.1 == category)).map Prod.snd with
  | Option.some m =>
    match (m.find? (fun es => es.1 == error_type)).map Prod.snd with
    | Option.some s => s
    | Option.none => "medium"
  | Option.none => "medium"

/-- The per-error-type contributions of the fallback: inferred severity,
dotted error type, and the pattern's record. -/
def inferContributions (detected : List (String × List (String × ErrorData))) :
    List (String × String × ErrorData) :=
  detected.flatMap (fun ce =>
    ce.2.map (fun ed => (mappedSeverity ce.1 ed.1, ce.1 ++ "." ++ ed.1, ed.2)))

/-- `_infer_severity_from_errors`: count every hit under its error type's
mapped severity and emit one detail per hit. -/
def inferSeverityFromErrors
    (detected : List (String × List (String × ErrorData))) : SeverityAnalysis :=
  let contribs := inferContributions detected
  { critical := (contribs.map (fun c =>
      if c.1 == "critical" then c.2.2.count else 0)).sum
    high := (contribs.map (fun c =>
      if c.1 == "high" then c.2.2.count else 0)).sum
    medium := (contribs.map (fun c =>
      if c.1 == "medium" then c.2.2.count else 0)).sum
    low := (contribs.map (fun c =>
      if c.1 == "low" then c.2.2.count else 0)).sum
    details := contribs.flatMap (fun c =>
      c.2.2.hits.map (fun m =>
        SeverityDetail.mk m.line_number c.1 (Option.some c.2.1) m.text)) }

/-- `_analyze_error_severity`: scan every line against the four severity
patterns; when no line matched any of them, fall back to the static
category/error-type table over the detected errors. -/
def analyzeErrorSeverity (lines : List String)
    (detected : List (String × List (String × ErrorData))) : SeverityAnalysis :=
  let explicit := severityFromHits (explicitSeverityHits lines)
  if explicit.critical + explicit.high + explicit.medium + explicit.low = 0 then
    inferSeverityFromErrors detected
  else explicit

/-- C5: for a document in which no line matches any of the four severity
regexes but the `database.deadlock` pattern has at least one hit, the
severity analysis falls back to the static table, its `critical` count
covers every deadlock hit, and every deadlock hit appears in the details
classified as `critical` under error type `database.deadlock`. -/
theorem severity_fallback_deadlock_critical (lines : List String)
    (hnosev : ∀ line ∈ lines, ∀ sp ∈ severityPatterns,
      searchPattern sp.2 line = false)
    (hdd : matchesFor deadlockAlts lines ≠ []) :
    analyzeErrorSeverity lines (detectedErrors lines Option.none) =
      inferSeverityFromErrors (detectedErrors lines Option.none) ∧
    (matchesFor deadlockAlts lines).length ≤
      (analyzeErrorSeverity lines (detectedErrors lines Option.none)).critical ∧
    ∀ m ∈ matchesFor deadlockAlts lines,
      SeverityDetail.mk m.line_number "critical"
          (Option.some "database.deadlock") m.text ∈
        (analyzeErrorSeverity lines (detectedErrors lines Option.none)).details := by
  have hexp : explicitSeverityHits lines = [] := by
    unfold explicitSeverityHits
    apply List.flatMap_eq_nil_iff.mpr
    intro il hil
    apply List.filterMap_eq_nil_iff.mpr
    intro sp hsp
    have hline : il.2 ∈ lines := by
      have hg := List.mem_enum_iff_get?.mp hil
      exact List.get?_mem hg
    simp [hnosev il.2 hline sp hsp]
  have hfall : analyzeErrorSeverity lines (detectedErrors lines Option.none) =
      inferSeverityFromErrors (detectedErrors lines Option.none) := by
    unfold analyzeErrorSeverity
    rw [hexp]
    rfl
  set dd := matchesFor deadlockAlts lines with hdddef
  set ddData := ErrorData.mk dd.length dd with hdata
  have hdl : ("deadlock", ddData) ∈ categoryErrors lines
      [("connection_failed",
        [["database", "connection", "failed"], ["failed", "connect", "database"],
         ["db", "connection", "error"]]),
       ("authentication_error",
        [["authentication", "failed"], ["login", "failed"],
         ["invalid", "credentials"], ["access", "denied"]]),
       ("query_error",
        [["sql", "error"], ["query", "failed"], ["syntax", "error"],
         ["invalid", "query"]]),
       ("timeout_error",
        [["query", "timeout"], ["command", "timeout"], ["execution", "timeout"]]),
       ("deadlock", deadlockAlts)] := by
    unfold categoryErrors
    apply List.mem_filterMap.mpr
    refine ⟨("deadlock", deadlockAlts), by simp, ?_⟩
    simp only
    rw [if_neg (by simpa using hdd)]
  have hdbmem : ("database", categoryErrors lines
      [("connection_failed",
        [["database", "connection", "failed"], ["failed", "connect", "database"],
         ["db", "connection", "error"]]),
       ("authentication_error",
        [["authentication", "failed"], ["login", "failed"],
         ["invalid", "credentials"], ["access", "denied"]]),
       ("query_error",
        [["sql", "error"], ["query", "failed"], ["syntax", "error"],
         ["invalid", "query"]]),
       ("timeout_error",
        [["query", "timeout"], ["command", "timeout"], ["execution", "timeout"]]),
       ("deadlock", deadlockAlts)]) ∈ detectedErrors lines Option.none := by
    unfold detectedErrors patternsToCheck
    apply List.mem_filterMap.mpr
    refine ⟨("database",
      [("connection_failed",
        [["database", "connection", "failed"], ["failed", "connect", "database"],
         ["db", "connection", "error"]]),
       ("authentication_error",
        [["authentication", "failed"], ["login", "failed"],
         ["invalid", "credentials"], ["access", "denied"]]),
       ("query_error",
        [["sql", "error"], ["query", "failed"], ["syntax", "error"],
         ["invalid", "query"]]),
       ("timeout_error",
        [["query", "timeout"], ["command", "timeout"], ["execution", "timeout"]]),
       ("deadlock", deadlockAlts)]), by simp [errorPatterns, deadlockAlts], ?_⟩
    simp only
    rw [if_neg (by
      intro hempty
      rw [List.isEmpty_iff] at hempty
      rw [hempty] at hdl
      exact List.not_mem_nil _ hdl)]
  have hcontrib : ("critical", "database.deadlock", ddData) ∈
      inferContributions (detectedErrors lines Option.none) := by
    unfold inferContributions
    apply List.mem_flatMap.mpr
    refine ⟨_, hdbmem, ?_⟩
    apply List.mem_map.mpr
    refine ⟨("deadlock", ddData), hdl, ?_⟩
    rfl
  refine ⟨hfall, ?_, ?_⟩
  · rw [hfall]
    unfold inferSeverityFromErrors
    simp only
    apply List.single_le_sum (fun x _ => Nat.zero_le x)
    apply List.mem_map.mpr
    exact ⟨("critical", "database.deadlock", ddData), hcontrib, rfl⟩
  · intro m hm
    rw [hfall]
    unfold inferSeverityFromErrors
    simp only
    apply List.mem_flatMap.mpr
    refine ⟨("critical", "database.deadlock", ddData), hcontrib, ?_⟩
    apply List.mem_map.mpr
    exact ⟨m, hm, rfl⟩

/-- A two-line document with a deadlock hit and no severity keyword. -/
def demoDeadlockLines : List String :=
  ["deadlock detected on node 3", "retrying transaction"]

/-- Witness for C5 at a concrete document: the fallback counts the deadlock
hit as critical and records it in the details. -/
theorem severity_fallback_deadlock_critical_witness :
    (matchesFor deadlockAlts demoDeadlockLines).length ≤
      (analyzeErrorSeverity demoDeadlockLines
        (detectedErrors demoDeadlockLines Option.none)).critical ∧
    SeverityDetail.mk 1 "critical" (Option.some "database.deadlock")
        "deadlock detected on node 3" ∈
      (analyzeErrorSeverity demoDeadlockLines
        (detectedErrors demoDeadlockLines Option.none)).details := by
  have h := severity_fallback_deadlock_critical demoDeadlockLines
    (by decide) (by decide)
  refine ⟨h.2.1, ?_⟩
  have hm : ErrorMatch.mk 1 "deadlock detected on node 3"
      (getContextLines demoDeadlockLines 0) ∈
      matchesFor deadlockAlts demoDeadlockLines := by decide
  exact h.2.2 _ hm

/-! ## 2.9 Research-task orchestrator (`agents/config_research_agent.py`)

Task creation and execution.  UUIDs and timestamps are oracle inputs or
elided; the leaf processors the task fans out to (Excel reader, PDF parser,
link analyzer) and the downstream pure aggregation passes
(`_perform_validation`, suggestion / recommendation generation, error
summary) are oracle functions of the upstream results — the claim is about
the task state machine and the shape of the per-source result slots, which
`execute_research_task` / `_process_excel_files` build and which are
embedded here in full. -/

/-- `ResearchTask` dataclass (`created_at` elided). -/
structure ResearchTask where
  task_id : String
  name : String
  description : String
  excel_files : List String
  pdf_files : List String
  links : List String
  validation_rules : List (String × PyVal)
  status : String := "pending"
  results : Option PyVal := Option.none
  error_message : Option String := Option.none
deriving Repr

/-- `ResearchResult` dataclass (`created_at` / `processing_time` are
wall-clock values and elided). -/
structure ResearchResult where
  task_id : String
  excel_results : PyVal
  pdf_results : PyVal
  link_results : PyVal
  validation_results : PyVal
  troubleshooting_suggestions : List PyVal
  configuration_recommendations : List PyVal
  error_summary : PyVal
deriving Repr

/-- The orchestrator's in-memory maps. -/
structure AgentState where
  tasks : List (String × ResearchTask)
  results : List (String × ResearchResult)

/-- One sheet as returned by `ExcelProcessor.read_excel_file`. -/
structure ExcelConfigRec where
  headers : List String
  data : List PyVal
  validation_rules : List (String × PyVal)
  metadata : List (String × PyVal)
deriving Repr

/-- One document as returned by `PDFParser.parse_pdf` (only the fields
`_process_pdf_files` reads). -/
structure PdfDocRec where
  title : String
  page_count : Nat
  content_length : Nat
  hash : String
  error_patterns : List PyVal
  troubleshooting_steps : List PyVal
  configuration_snippets : List PyVal
deriving Repr

/-- One analyzed link (its `asdict` form plus the `is_valid` flag). -/
structure LinkInfoRec where
  info : PyVal
  is_valid : Bool
deriving Repr

/-- Oracles for the orchestrator: the filesystem, the three leaf
processors (`Except.error` = the processor call raised), and the
downstream aggregation passes. -/
structure AgentEnv where
  pathExists : String → Bool
  readExcelFile : String → Except String (List (String × ExcelConfigRec))
  parsePdf : String → Except String PdfDocRec
  analyzeLinks : List String → Except String (List LinkInfoRec)
  getDomainStatistics : List LinkInfoRec → PyVal
  performValidation : PyVal → PyVal → PyVal → List (String × PyVal) → PyVal
  generateTroubleshooting : PyVal → PyVal → PyVal → PyVal → List PyVal
  generateConfigRecommendations : PyVal → PyVal → PyVal → List PyVal
  createErrorSummary : PyVal → PyVal → PyVal → PyVal → PyVal

/-- Python dict assignment on an ordered association list: replace the
first entry with the key in place, else append. -/
def setAssoc (m : List (String × α)) (k : String) (v : α) :
    List (String × α) :=
  match m with
  | [] => [(k, v)]
  | kv :: rest => if kv.1 == k then (k, v) :: rest else kv :: setAssoc rest k v

/-- `create_research_task`: store a fresh task (status `pending`) under the
generated id and return the id. -/
def createResearchTask (st : AgentState) (newId : String)
    (name description : String) (excel_files pdf_files links : List String)
    (validation_rules : List (String × PyVal)) : String × AgentState :=
  let task : ResearchTask :=
    { task_id := newId, name := name, description := description,
      excel_files := excel_files, pdf_files := pdf_files, links := links,
      validation_rules := validation_rules }
  (newId, { st with tasks := setAssoc st.tasks newId task })

/-- Accumulator of the `_process_excel_files` loop. -/
structure ExcelAcc where
  files_processed : Nat := 0
  configurations : List (String × PyVal) := []
  validation_rules : List (String × PyVal) := []
  errors : List String := []

/-- One iteration of the `_process_excel_files` loop. -/
def processExcelStep (env : AgentEnv) (acc : ExcelAcc) (fp : String) :
    ExcelAcc :=
  if !env.pathExists fp then
    { acc with errors := acc.errors ++ [s!"File not found: {fp}"] }
  else
    match env.readExcelFile fp with
    | Except.error e =>
      { acc with errors := acc.errors ++ [s!"Error processing {fp}: {e}"] }
    | Except.ok configs =>
      { acc with
          files_processed := acc.files_processed + 1
          configurations := acc.configurations ++ configs.map (fun sc =>
            (s!"{fp}:{sc.1}", PyVal.dict
              [("headers", PyVal.list (sc.2.headers.map PyVal.str)),
               ("data", PyVal.list sc.2.data),
               ("metadata", PyVal.dict sc.2.metadata)]))
          validation_rules := acc.validation_rules ++
            (configs.filter (fun sc => !sc.2.validation_rules.isEmpty)).map
              (fun sc => (s!"{fp}:{sc.1}", PyVal.dict sc.2.validation_rules)) }

/-- `_process_excel_files`: a message dictionary when there is nothing to
do, otherwise the per-file fold into the result dictionary (`errors` is a
list under the key "errors"; missing files and per-file read failures are
recorded there and the loop continues). -/
def processExcelFiles (env : AgentEnv) (excel_files : List String) : PyVal :=
  if excel_files.isEmpty then
    PyVal.dict [("message", PyVal.str "No Excel files to process")]
  else
    let acc := excel_files.foldl (processExcelStep env) {}
    PyVal.dict
      [("files_processed", PyVal.int acc.files_processed),
       ("configurations", PyVal.dict acc.configurations),
       ("validation_rules", PyVal.dict acc.validation_rules),
       ("errors", PyVal.list (acc.errors.map PyVal.str))]

/-- Accumulator of the `_process_pdf_files` loop. -/
structure PdfAcc where
  files_processed : Nat := 0
  documents : List (String × PyVal) := []
  error_patterns : List PyVal := []
  troubleshooting_steps : List PyVal := []
  configuration_snippets : List PyVal := []
  errors : List String := []

/-- One iteration of the `_process_pdf_files` loop. -/
def processPdfStep (env : AgentEnv) (acc : PdfAcc) (fp : String) : PdfAcc :=
  if !env.pathExists fp then
    { acc with errors := acc.errors ++ [s!"File not found: {fp}"] }
  else
    match env.parsePdf fp with
    | Except.error e =>
      { acc with errors := acc.errors ++ [s!"Error processing {fp}: {e}"] }
    | Except.ok doc =>
      { acc with
          files_processed := acc.files_processed + 1
          documents := acc.documents ++
            [(fp, PyVal.dict
              [("title", PyVal.str doc.title),
               ("page_count", PyVal.int doc.page_count),
               ("content_length", PyVal.int doc.content_length),
               ("hash", PyVal.str doc.hash)])]
          error_patterns := acc.error_patterns ++ doc.error_patterns
          troubleshooting_steps := acc.troubleshooting_steps ++
            doc.troubleshooting_steps
          configuration_snippets := acc.configuration_snippets ++
            doc.configuration_snippets }

/-- `_process_pdf_files`. -/
def processPdfFiles (env : AgentEnv) (pdf_files : List String) : PyVal :=
  if pdf_files.isEmpty then
    PyVal.dict [("message", PyVal.str "No PDF files to process")]
  else
    let acc := pdf_files.foldl (processPdfStep env) {}
    PyVal.dict
      [("files_processed", PyVal.int acc.files_processed),
       ("documents", PyVal.dict acc.documents),
       ("error_patterns", PyVal.list acc.error_patterns),
       ("troubleshooting_steps", PyVal.list acc.troubleshooting_steps),
       ("configuration_snippets", PyVal.list acc.configuration_snippets),
       ("errors", PyVal.list (acc.errors.map PyVal.str))]

/-- `_process_links`: the whole analysis is wrapped in one `try`, so a
raised analyzer call leaves the counts empty and records one error. -/
def processLinks (env : AgentEnv) (links : List String) : PyVal :=
  if links.isEmpty then
    PyVal.dict [("message", PyVal.str "No links to process")]
  else
    match env.analyzeLinks links with
    | Except.error e =>
      PyVal.dict
        [("links_processed", PyVal.int 0),
         ("valid_links", PyVal.int 0),
         ("link_info", PyVal.list []),
         ("domain_statistics", PyVal.dict []),
         ("errors", PyVal.list [PyVal.str s!"Error processing links: {e}"])]
    | Except.ok lis =>
      PyVal.dict
        [("links_processed", PyVal.int lis.length),
         ("valid_links", PyVal.int (lis.countP (fun li => li.is_valid))),
         ("link_info", PyVal.list (lis.map (fun li => li.info))),
         ("domain_statistics", env.getDomainStatistics lis),
         ("errors", PyVal.list [])]

/-- `asdict` of a `ResearchResult`, as stored on the completed task. -/
def researchResultDict (r : ResearchResult) : PyVal :=
  PyVal.dict
    [("task_id", PyVal.str r.task_id),
     ("excel_results", r.excel_results),
     ("pdf_results", r.pdf_results),
     ("link_results", r.link_results),
     ("validation_results", r.validation_results),
     ("troubleshooting_suggestions", PyVal.list r.troubleshooting_suggestions),
     ("configuration_recommendations",
      PyVal.list r.configuration_recommendations),
     ("error_summary", r.error_summary)]

/-- `execute_research_task`: raise on an unknown id; otherwise fan out to
the three processors, run the aggregation passes, store the result under
the task id and mark the task `completed` (the transient `running` status
is not observable in the returned state). -/
def executeResearchTask (env : AgentEnv) (st : AgentState) (task_id : String) :
    Except String (AgentState × ResearchResult) :=
  match (st.tasks.find? (fun kv => kv.1 == task_id)).map Prod.snd with
  | Option.none => Except.error s!"Task {task_id} not found"
  | Option.some task =>
    let excel := processExcelFiles env task.excel_files
    let pdf := processPdfFiles env task.pdf_files
    let lnk := processLinks env task.links
    let validation := env.performValidation excel pdf lnk task.validation_rules
    let suggestions := env.generateTroubleshooting excel pdf lnk validation
    let recommendations := env.generateConfigRecommendations excel pdf lnk
    let errorSummary := env.createErrorSummary excel pdf lnk validation
    let result : ResearchResult :=
      { task_id := task_id, excel_results := excel, pdf_results := pdf,
        link_results := lnk, validation_results := validation,
        troubleshooting_suggestions := suggestions,
        configuration_recommendations := recommendations,
        error_summary := errorSummary }
    let task' := { task with status := "completed",
                             results := Option.some (researchResultDict result) }
    Except.ok
      ({ tasks := setAssoc st.tasks task_id task'
         results := setAssoc st.results task_id result }, result)

/-- The value stored under a key of a dictionary value. -/
def dictGet (k : String) : PyVal → Option PyVal
  | PyVal.dict es => (es.find? (fun kv => kv.1 == k)).map Prod.snd
  | _ => Option.none

/-- Whether a dictionary value has the key at all. -/
def hasKey (k : String) (v : PyVal) : Bool := (dictGet k v).isSome

/-- Looking up the key just set finds the new value. -/
theorem setAssoc_find (m : List (String × α)) (k : String) (v : α) :
    ((setAssoc m k v).find? (fun kv => kv.1 == k)).map Prod.snd =
      Option.some v := by
  induction m with
  | nil => simp [setAssoc, List.find?]
  | cons kv rest ih =>
    by_cases h : kv.1 == k
    · simp [setAssoc, h, List.find?]
    · simp only [setAssoc, h, Bool.false_eq_true, if_false]
      rw [List.find?_cons_of_neg _ (by simpa using h)]
      exact ih

/-- Membership in the excel error list survives the rest of the fold. -/
theorem processExcel_errors_mono (env : AgentEnv) (msg : String) :
    ∀ (files : List String) (acc : ExcelAcc), msg ∈ acc.errors →
      msg ∈ (files.foldl (processExcelStep env) acc).errors := by
  intro files
  induction files with
  | nil => intro acc h; exact h
  | cons fp rest ih =>
    intro acc h
    rw [List.foldl_cons]
    apply ih
    unfold processExcelStep
    split
    · simpa using Or.inl h
    · split
      · simpa using Or.inl h
      · simpa using h

/-- A missing excel file's message ends up in the fold's error list. -/
theorem processExcel_missing_file_error (env : AgentEnv) (fp : String)
    (hne : env.pathExists fp = false) :
    ∀ (files : List String), fp ∈ files → ∀ (acc : ExcelAcc),
      s!"File not found: {fp}" ∈
        (files.foldl (processExcelStep env) acc).errors := by
  intro files
  induction files with
  | nil => intro h; cases h
  | cons g rest ih =>
    intro hmem acc
    rw [List.foldl_cons]
    rcases List.mem_cons.mp hmem with rfl | hmem'
    · apply processExcel_errors_mono
      unfold processExcelStep
      rw [hne]
      simp
    · exact ih hmem' _

/-- C3 amended: a freshly created task has status `pending`; when
`execute_research_task` returns without raising, the task's status is
`completed` and the `ResearchResult` is retrievable under the same id;
execution never raises for a stored task, and when an excel source names a
missing file the task still completes while that source's slot records the
failure in its `errors` list (the slot has an `errors` key, not an `error`
key). -/
theorem researchTask_state_machine (env : AgentEnv) (st : AgentState)
    (newId name description : String)
    (excel_files pdf_files links : List String)
    (validation_rules : List (String × PyVal)) (task_id fp : String) :
    (((createResearchTask st newId name description excel_files pdf_files
        links validation_rules).2.tasks.find?
          (fun kv => kv.1 == newId)).map (fun kv => kv.2.status) =
      Option.some "pending") ∧
    (∀ st' res, executeResearchTask env st task_id = Except.ok (st', res) →
      ((st'.tasks.find? (fun kv => kv.1 == task_id)).map
          (fun kv => kv.2.status) = Option.some "completed") ∧
      ((st'.results.find? (fun kv => kv.1 == task_id)).map Prod.snd =
        Option.some res)) ∧
    (∀ task, ((st.tasks.find? (fun kv => kv.1 == task_id)).map Prod.snd =
        Option.some task) →
      (∃ st' res, executeResearchTask env st task_id = Except.ok (st', res) ∧
        res.excel_results = processExcelFiles env task.excel_files) ∧
      (fp ∈ task.excel_files → env.pathExists fp = false →
        hasKey "errors" (processExcelFiles env task.excel_files) = true ∧
        dictGet "errors" (processExcelFiles env task.excel_files) =
          Option.some (PyVal.list
            ((task.excel_files.foldl (processExcelStep env)
              {}).errors.map PyVal.str)) ∧
        PyVal.str s!"File not found: {fp}" ∈
          ((task.excel_files.foldl (processExcelStep env) {}).errors.map
            PyVal.str))) := by
  have hmapst : ∀ (x : Option (String × ResearchTask)),
      x.map (fun kv => kv.2.status) = (x.map Prod.snd).map
        (fun t : ResearchTask => t.status) := by
    intro x; cases x <;> rfl
  refine ⟨?_, ?_, ?_⟩
  · unfold createResearchTask
    simp only
    rw [hmapst, setAssoc_find]
    rfl
  · intro st' res hexec
    unfold executeResearchTask at hexec
    rcases hfind : (st.tasks.find? (fun kv => kv.1 == task_id)).map Prod.snd
      with - | task
    · rw [hfind] at hexec; cases hexec
    · rw [hfind] at hexec
      simp only [Except.ok.injEq, Prod.mk.injEq] at hexec
      obtain ⟨hst, hres⟩ := hexec
      constructor
      · rw [← hst]
        dsimp only
        rw [hmapst, setAssoc_find]
        rfl
      · rw [← hst]
        dsimp only
        rw [setAssoc_find, hres]
  · intro task hfind
    constructor
    · unfold executeResearchTask
      rw [hfind]
      exact ⟨_, _, rfl, rfl⟩
    · intro hmem hne
      have herrs : dictGet "errors" (processExcelFiles env task.excel_files) =
          Option.some (PyVal.list
            ((task.excel_files.foldl (processExcelStep env) {}).errors.map
              PyVal.str)) := by
        unfold processExcelFiles
        rw [if_neg (by
          intro hempty
          rw [List.isEmpty_iff] at hempty
          rw [hempty] at hmem
          exact List.not_mem_nil _ hmem)]
        rfl
      refine ⟨by rw [hasKey, herrs]; rfl, herrs, ?_⟩
      exact List.mem_map.mpr
        ⟨_, processExcel_missing_file_error env fp hne task.excel_files hmem {},
          rfl⟩

/-- An environment in which no file exists and every oracle is trivial. -/
def demoAgentEnv : AgentEnv :=
  { pathExists := fun _ => false
    readExcelFile := fun _ => Except.error "unreachable"
    parsePdf := fun _ => Except.error "unreachable"
    analyzeLinks := fun _ => Except.ok []
    getDomainStatistics := fun _ => PyVal.dict []
    performValidation := fun _ _ _ _ => PyVal.dict []
    generateTroubleshooting := fun _ _ _ _ => []
    generateConfigRecommendations := fun _ _ _ => []
    createErrorSummary := fun _ _ _ _ => PyVal.dict [] }

/-- A task whose only excel source is a missing file. -/
def demoTask : ResearchTask :=
  { task_id := "t1", name := "n", description := "d",
    excel_files := ["missing.xlsx"], pdf_files := [], links := [],
    validation_rules := [] }

/-- The orchestrator state holding `demoTask`. -/
def demoAgentState : AgentState :=
  { tasks := [("t1", demoTask)], results := [] }

/-- Counterexample to C3 as stated: executing a task whose excel source
path does not exist still completes, but the excel result slot has **no**
`error` key — the failure is recorded in the `errors` list instead. -/
theorem researchTask_error_key_counterexample :
    ∃ st' res,
      executeResearchTask demoAgentEnv demoAgentState "t1" =
        Except.ok (st', res) ∧
      ((st'.tasks.find? (fun kv => kv.1 == "t1")).map
          (fun kv => kv.2.status) = Option.some "completed") ∧
      hasKey "error" res.excel_results = false ∧
      dictGet "errors" res.excel_results =
        Option.some (PyVal.list [PyVal.str "File not found: missing.xlsx"]) :=
  ⟨_, _, rfl, rfl, rfl, rfl⟩

/-- Witness for the amended C3 at the concrete state: a fresh task is
pending; execution succeeds and the excel slot of its result records the
missing file under the `errors` key. -/
theorem researchTask_state_machine_witness :
    (((createResearchTask demoAgentState "t2" "n" "d" [] [] [] []).2.tasks.find?
        (fun kv => kv.1 == "t2")).map (fun kv => kv.2.status) =
      Option.some "pending") ∧
    (∃ st' res,
      executeResearchTask demoAgentEnv demoAgentState "t1" =
        Except.ok (st', res) ∧
      res.excel_results = processExcelFiles demoAgentEnv demoTask.excel_files) ∧
    hasKey "errors" (processExcelFiles demoAgentEnv demoTask.excel_files) =
      true ∧
    PyVal.str "File not found: missing.xlsx" ∈
      ((demoTask.excel_files.foldl (processExcelStep demoAgentEnv) {}).errors.map
        PyVal.str) := by
  have h := researchTask_state_machine demoAgentEnv demoAgentState "t2" "n" "d"
    [] [] [] [] "t1" "missing.xlsx"
  have h3 := h.2.2 demoTask rfl
  have h4 := h3.2 (by simp [demoTask]) rfl
  exact ⟨h.1, h3.1, h4.1, h4.2.2⟩

/-! ## 2.5 Configuration file validator: security validation
(`validators/config_validator.py`, `_check_sensitive_values` /
`_perform_security_validation`)

`_check_sensitive_values` runs, for every sensitive field name `f`,
`re.findall(rf'{f}\s*[=:]\s*["\x27]?([^"\x27\s\n]+)', content, re.IGNORECASE)`.
For this fixed pattern shape the regex engine's behaviour is: at a match
start the field name must appear (case-insensitively); `\s*` greedily eats
whitespace up to a mandatory `=` or `:` (backtracking cannot help, since a
shorter whitespace run leaves a whitespace character where `[=:]` is
required); whitespace is skipped again, one optional quote is consumed, and
the capture takes the maximal nonempty run of non-quote non-whitespace
characters; scanning resumes after the capture.  `matchSens` embeds one
such match attempt, `findallSens` the scan (fuelled by the string length so
that it is structural). -/

/-- Lower-case image of a character list (`re.IGNORECASE` comparison). -/
def lcList (s : List Char) : List Char := s.map Char.toLower

/-- A character the capture group `[^"\x27\s\n]+` accepts. -/
def isCaptureChar (c : Char) : Bool := !(c = '"' || c = '\'' || isPySpace c)

/-- Strip `f` from the head of `s`, comparing case-insensitively; returns
the remainder. -/
def stripPrefixCI : List Char → List Char → Option (List Char)
  | [], s => Option.some s
  | _ :: _, [] => Option.none
  | c :: f, d :: s =>
    if c.toLower = d.toLower then stripPrefixCI f s else Option.none

/-- Tail of the pattern after the `[=:]`: `\s*` has already been skipped;
consume one optional quote, then the nonempty capture; returns the capture
and the remainder after it. -/
def matchSensValue (s3 : List Char) : Option (List Char × List Char) :=
  let s4 := match s3 with
    | q :: s4' => if q = '"' ∨ q = '\'' then s4' else s3
    | [] => s3
  let cap := s4.takeWhile isCaptureChar
  if cap.isEmpty then Option.none else Option.some (cap, s4.drop cap.length)

/-- Middle of the pattern after the field name: `\s*`, a mandatory `=` or
`:`, `\s*`, then the value part. -/
def matchSensAfterField (s1 : List Char) : Option (List Char × List Char) :=
  match s1.dropWhile isPySpace with
  | [] => Option.none
  | c :: s2 =>
    if c = '=' ∨ c = ':' then matchSensValue (s2.dropWhile isPySpace)
    else Option.none

/-- One anchored attempt of the sensitive-value pattern at the head of
`s`: field name (case-insensitively), then the middle and value parts;
returns the capture (original case) and the remainder after the match. -/
def matchSens (f : List Char) (s : List Char) :
    Option (List Char × List Char) :=
  match stripPrefixCI f s with
  | Option.none => Option.none
  | Option.some s1 => matchSensAfterField s1

/-- `stripPrefixCI` only ever shortens the string. -/
theorem stripPrefixCI_length_le (f : List Char) :
    ∀ (s s1 : List Char), stripPrefixCI f s = Option.some s1 →
      s1.length ≤ s.length := by
  induction f with
  | nil => intro s s1 h; cases h; exact le_refl _
  | cons c f ih =>
    intro s s1 h
    cases s with
    | nil => cases h
    | cons d t =>
      unfold stripPrefixCI at h
      split at h
      · exact le_trans (ih t s1 h) (Nat.le_succ _)
      · cases h

/-- A successful anchored match means the lowered field name prefixes the
lowered string. -/
theorem matchSens_prefix (f s : List Char) (p : List Char × List Char)
    (h : matchSens f s = Option.some p) : lcList f <+: lcList s := by
  have key : ∀ (g t : List Char) (t1 : List Char),
      stripPrefixCI g t = Option.some t1 → lcList g <+: lcList t := by
    intro g
    induction g with
    | nil => intro t t1 _; exact List.nil_prefix
    | cons c g ih =>
      intro t t1 h
      cases t with
      | nil => cases h
      | cons d t' =>
        unfold stripPrefixCI at h
        split at h
        · next heq =>
          have hrec := ih t' t1 h
          simp only [lcList, List.map_cons] at hrec ⊢
          rw [heq]
          exact List.cons_prefix_cons.mpr ⟨rfl, hrec⟩
        · cases h
  unfold matchSens at h
  split at h
  · cases h
  · next s1 hstrip => exact key f s s1 hstrip

/-- The value part only returns remainders shorter than its input. -/
theorem matchSensValue_rest_lt (s3 : List Char) (p : List Char × List Char)
    (h : matchSensValue s3 = Option.some p) : p.2.length < s3.length := by
  unfold matchSensValue at h
  have h5 : (match s3 with
      | q :: s4' => if q = '"' ∨ q = '\'' then s4' else s3
      | [] => s3).length ≤ s3.length := by
    rcases s3 with - | ⟨q, s4'⟩
    · exact le_refl _
    · dsimp only
      split
      · exact Nat.le_succ _
      · exact le_refl _
  set s4 := (match s3 with
      | q :: s4' => if q = '"' ∨ q = '\'' then s4' else s3
      | [] => s3) with hs4
  dsimp only at h
  split at h
  · cases h
  · next hcap =>
    rw [Option.some.injEq] at h
    have hcap' : 0 < (s4.takeWhile isCaptureChar).length := by
      rcases hc : s4.takeWhile isCaptureChar with - | _
      · rw [hc] at hcap; simp at hcap
      · simp
    have h6 : p.2.length = s4.length - (s4.takeWhile isCaptureChar).length := by
      rw [← h]
      simp
    have h7 : (s4.takeWhile isCaptureChar).length ≤ s4.length :=
      (s4.takeWhile_sublist _).length_le
    omega

/-- The middle part only returns remainders shorter than its input. -/
theorem matchSensAfterField_rest_lt (s1 : List Char)
    (p : List Char × List Char)
    (h : matchSensAfterField s1 = Option.some p) : p.2.length < s1.length := by
  unfold matchSensAfterField at h
  split at h
  · cases h
  · next c s2 hdw =>
    split at h
    · have h2 : (c :: s2).length ≤ s1.length := by
        rw [← hdw]; exact (s1.dropWhile_sublist _).length_le
      have h3 : s2.length < s1.length := by
        simp only [List.length_cons] at h2; omega
      have h4 : (s2.dropWhile isPySpace).length ≤ s2.length :=
        (s2.dropWhile_sublist _).length_le
      have := matchSensValue_rest_lt _ _ h
      omega
    · cases h

/-- The remainder of a successful match is strictly shorter. -/
theorem matchSens_rest_lt (f s : List Char) (p : List Char × List Char)
    (h : matchSens f s = Option.some p) : p.2.length < s.length := by
  unfold matchSens at h
  split at h
  · cases h
  · next s1 hstrip =>
    have h1 : s1.length ≤ s.length := stripPrefixCI_length_le f s s1 hstrip
    have := matchSensAfterField_rest_lt s1 p h
    omega

/-- Fuelled scan of `re.findall` for the sensitive-value pattern: try an
anchored match at every position, collecting captures and resuming after
each match. -/
def findallSensFuel (f : List Char) : Nat → List Char → List (List Char)
  | 0, _ => []
  | _ + 1, [] => []
  | fuel + 1, c :: t =>
    match matchSens f (c :: t) with
    | Option.some (cap, rest) => cap :: findallSensFuel f fuel rest
    | Option.none => findallSensFuel f fuel t

/-- `re.findall` of the sensitive-value pattern over the whole content. -/
def findallSens (f : List Char) (s : List Char) : List (List Char) :=
  findallSensFuel f s.length s

/-- Any fuel at least the string length computes the same scan. -/
theorem findallSensFuel_irrel (f : List Char) :
    ∀ (fuel1 fuel2 : Nat) (s : List Char), s.length ≤ fuel1 →
      s.length ≤ fuel2 →
      findallSensFuel f fuel1 s = findallSensFuel f fuel2 s := by
  intro fuel1
  induction fuel1 with
  | zero =>
    intro fuel2 s h1 h2
    have : s = [] := List.length_eq_zero.mp (Nat.le_zero.mp h1)
    subst this
    cases fuel2 <;> rfl
  | succ n ih =>
    intro fuel2 s h1 h2
    cases s with
    | nil => cases fuel2 <;> rfl
    | cons c t =>
      rcases fuel2 with - | m
      · simp at h2
      · show (match matchSens f (c :: t) with
          | Option.some (cap, rest) => cap :: findallSensFuel f n rest
          | Option.none => findallSensFuel f n t) =
          (match matchSens f (c :: t) with
          | Option.some (cap, rest) => cap :: findallSensFuel f m rest
          | Option.none => findallSensFuel f m t)
        rcases hm : matchSens f (c :: t) with - | ⟨cap, rest⟩
        · dsimp only
          apply ih
          · simp only [List.length_cons] at h1; omega
          · simp only [List.length_cons] at h2; omega
        · dsimp only
          rw [ih m rest ?_ ?_]
          · have := matchSens_rest_lt f (c :: t) _ hm
            simp only [List.length_cons] at this h1
            omega
          · have := matchSens_rest_lt f (c :: t) _ hm
            simp only [List.length_cons] at this h2
            omega

/-- One scan step of the fuelled findall. -/
theorem findallSensFuel_cons (f : List Char) (fuel : Nat) (c : Char)
    (t : List Char) :
    findallSensFuel f (fuel + 1) (c :: t) =
      (match matchSens f (c :: t) with
      | Option.some (cap, rest) => cap :: findallSensFuel f fuel rest
      | Option.none => findallSensFuel f fuel t) := rfl

/-- Unfold one scan step on a successful match. -/
theorem findallSens_cons_match (f s cap rest : List Char)
    (h : matchSens f s = Option.some (cap, rest)) (hne : s ≠ []) :
    findallSens f s = cap :: findallSens f rest := by
  rcases s with - | ⟨c, t⟩
  · exact absurd rfl hne
  · show findallSensFuel f (c :: t).length (c :: t) = _
    rw [show (c :: t).length = t.length + 1 from rfl, findallSensFuel_cons, h]
    dsimp only
    congr 1
    apply findallSensFuel_irrel
    · have := matchSens_rest_lt f (c :: t) _ h
      simp only [List.length_cons] at this
      omega
    · exact le_refl _

/-- Dropping fewer elements than the length keeps the last element. -/
theorem getLast?_drop_of_lt (l : List Char) (i : Nat) (h : i < l.length) :
    (l.drop i).getLast? = l.getLast? := by
  induction i generalizing l with
  | zero => rfl
  | succ n ih =>
    cases l with
    | nil => simp at h
    | cons c t =>
      rw [List.drop_succ_cons]
      rw [ih t (by simpa using h)]
      rcases t with - | ⟨d, t'⟩
      · simp at h
      · simp [List.getLast?_cons_cons]

/-- A prefix no longer than the first part of an append is a prefix of
that first part. -/
theorem prefix_append_iff_of_len_le {a b c : List Char}
    (h : a.length ≤ b.length) : a <+: b ++ c ↔ a <+: b := by
  constructor
  · intro hp
    have := List.prefix_iff_eq_take.mp hp
    rw [List.take_append_of_le_length h] at this
    rw [this]
    exact List.take_prefix _ _
  · intro hp
    exact hp.trans (b.prefix_append c)

/-- When no anchored match can start inside `A`, the scan of `A ++ B` is
the scan of `B`. -/
theorem findallSensFuel_append (f : List Char) :
    ∀ (A B : List Char) (fuel : Nat), (A ++ B).length ≤ fuel →
      (∀ i < A.length, ¬ (lcList f <+: lcList ((A ++ B).drop i))) →
      findallSensFuel f fuel (A ++ B) =
        findallSensFuel f (fuel - A.length) B := by
  intro A
  induction A with
  | nil => intro B fuel h1 h2; simp
  | cons c A' ih =>
    intro B fuel h1 h2
    rcases fuel with - | m
    · simp at h1
    · rw [List.cons_append, findallSensFuel_cons]
      have hnone : matchSens f (c :: (A' ++ B)) = Option.none := by
        rcases hm : matchSens f (c :: (A' ++ B)) with - | p
        · rfl
        · exfalso
          apply h2 0 (by simp)
          simpa using matchSens_prefix f _ _ hm
      rw [hnone]
      dsimp only
      rw [ih B m (by simp only [List.length_append, List.length_cons,
          List.cons_append] at h1 ⊢; omega) ?_]
      · congr 1
        simp only [List.length_cons]
        omega
      · intro i hi
        have := h2 (i + 1) (by simp only [List.length_cons]; omega)
        simpa using this

/-- The scan of `A ++ B` is the scan of `B`, when no anchored match can
start inside `A`. -/
theorem findallSens_append (f A B : List Char)
    (h : ∀ i < A.length, ¬ (lcList f <+: lcList ((A ++ B).drop i))) :
    findallSens f (A ++ B) = findallSens f B := by
  unfold findallSens
  rw [findallSensFuel_append f A B _ (le_refl _) h]
  congr 1
  simp

/-- The no-match-start condition for an `A` whose lowered form does not
contain the lowered field name, when every straddling suffix of the field
name fails to prefix `B`. -/
theorem no_start_of_no_occurrence (f A B : List Char)
    (hinf : ¬ ((lcList f) <:+: lcList A))
    (hstr : ∀ k < f.length, 0 < k → ¬ ((lcList f).drop k <+: lcList B)) :
    ∀ i < A.length, ¬ (lcList f <+: lcList ((A ++ B).drop i)) := by
  intro i hi hpref0
  have hpref : lcList f <+: (lcList A).drop i ++ lcList B := by
    have h1 : lcList ((A ++ B).drop i) = (lcList A).drop i ++ lcList B := by
      rw [show (A ++ B).drop i = A.drop i ++ B from
        List.drop_append_of_le_length (le_of_lt hi)]
      simp [lcList, List.map_append, List.map_drop]
    rw [← h1]
    exact hpref0
  by_cases hlen : f.length ≤ ((lcList A).drop i).length
  · have hpref' : lcList f <+: (lcList A).drop i := by
      rw [← prefix_append_iff_of_len_le (c := lcList B) (by
        simpa [lcList] using hlen)]
      exact hpref
    exact hinf (hpref'.isInfix.trans ((lcList A).drop_suffix i).isInfix)
  · push_neg at hlen
    set a := (lcList A).drop i with ha
    have hap : a <+: lcList f :=
      List.prefix_of_prefix_length_le (a.prefix_append (lcList B)) hpref
        (by simp only [lcList, List.length_map]; omega)
    have hsplit : lcList f = a ++ (lcList f).drop a.length := by
      have := List.prefix_iff_eq_take.mp hap
      conv_lhs => rw [← List.take_append_drop a.length (lcList f), ← this]
    have hdropp : (lcList f).drop a.length <+: lcList B := by
      have hthis := hpref
      rw [hsplit] at hthis
      exact (List.prefix_append_right_inj a).mp hthis
    apply hstr a.length ?_ ?_ hdropp
    · simpa [ha] using hlen
    · have : 0 < (lcList A).length - i := by simp [lcList]; omega
      simpa [ha] using this

/-- The no-match-start condition for a block that ends in a newline: the
field name contains no newline, so a match-start inside the block would
put the lowered field name wholly inside the block. -/
theorem no_start_of_block_newline (f A B : List Char)
    (hA : ∀ i < A.length, ¬ (lcList f <+: lcList (A.drop i)))
    (hlast : A.getLast? = Option.some '\n')
    (hfnl : '\n' ∉ lcList f) :
    ∀ i < A.length, ¬ (lcList f <+: lcList ((A ++ B).drop i)) := by
  intro i hi hpref0
  have hpref : lcList f <+: (lcList A).drop i ++ lcList B := by
    have h1 : lcList ((A ++ B).drop i) = (lcList A).drop i ++ lcList B := by
      rw [show (A ++ B).drop i = A.drop i ++ B from
        List.drop_append_of_le_length (le_of_lt hi)]
      simp [lcList, List.map_append, List.map_drop]
    rw [← h1]
    exact hpref0
  by_cases hlen : f.length ≤ ((lcList A).drop i).length
  · have hpref' : lcList f <+: (lcList A).drop i := by
      rw [← prefix_append_iff_of_len_le (c := lcList B) (by
        simpa [lcList] using hlen)]
      exact hpref
    exact hA i hi (by
      rw [show lcList (A.drop i) = (lcList A).drop i by simp [lcList]]
      exact hpref')
  · push_neg at hlen
    set a := (lcList A).drop i with ha
    have hap : a <+: lcList f :=
      List.prefix_of_prefix_length_le (a.prefix_append (lcList B)) hpref
        (by simp only [lcList, List.length_map]; omega)
    apply hfnl
    apply hap.subset
    have hanil : a ≠ [] := by
      have : 0 < (lcList A).length - i := by simp [lcList]; omega
      intro hx
      rw [ha] at hx
      have := congrArg List.length hx
      simp at this
      omega
    have hlastA : (lcList A).getLast? = Option.some '\n' := by
      rcases List.getLast?_eq_some_iff.mp hlast with ⟨A', hA'⟩
      rw [hA']
      simp [lcList]
    have : a.getLast? = Option.some '\n' := by
      rw [ha, getLast?_drop_of_lt _ i (by simp [lcList]; omega)]
      exact hlastA
    rcases List.getLast?_eq_some_iff.mp this with ⟨a', ha'⟩
    rw [ha']
    simp

/-- The `sensitive_fields` table of `_initialize_security_rules`. -/
def sensitiveFields : List String :=
  ["password", "passwd", "pwd", "secret", "key", "token",
   "api_key", "private_key", "certificate", "credential"]

/-- The `insecure_values` table. -/
def insecureValues : List String :=
  ["password", "123456", "admin", "root", "test", "default",
   "guest", "user", "changeme", "password123"]

/-- The capture values `_check_sensitive_values` does not flag for a
field: empty / null-ish text, the literal `${VAR}`, and the field's own
upper-cased `${FIELD}` placeholder. -/
def sensExclusions (f : String) : List String :=
  ["", "null", "none", "${VAR}", "$\x7b" ++ pyUpper f ++ "\x7d"]

/-- The error messages of the content scan of `_check_sensitive_values`:
for every sensitive field, every findall capture that is non-empty and not
excluded yields a hardcoded-value error quoting the capture's first ten
characters. -/
def sensitiveContentErrors (content : List Char) : List String :=
  sensitiveFields.flatMap (fun f =>
    ((findallSens f.toList content).filter (fun cap =>
      !(String.mk cap).isEmpty &&
        !(sensExclusions f).contains (String.mk cap))).map
      (fun cap => s!"Hardcoded {f} detected: {String.mk (cap.take 10)}..."))

mutual

/-- The insecure-default warnings of the recursive walk of
`_check_sensitive_values` (only dictionary values are checked). -/
def insecureWarningsVal (path : String) : PyVal → List String
  | PyVal.dict es => insecureWarningsEntries path es
  | PyVal.list items => insecureWarningsItems path 0 items
  | _ => []

/-- Insecure-default warnings of one dictionary's entries. -/
def insecureWarningsEntries (path : String) :
    List (String × PyVal) → List String
  | [] => []
  | (k, v) :: rest =>
    (match v with
     | PyVal.str s =>
       if insecureValues.contains (pyLower s) then
         [s!"Insecure default value detected at '{joinPath path k}': {s}"]
       else []
     | _ => []) ++
    (match v with
     | PyVal.dict _ => insecureWarningsVal (joinPath path k) v
     | PyVal.list _ => insecureWarningsVal (joinPath path k) v
     | _ => []) ++
    insecureWarningsEntries path rest

/-- Insecure-default warnings of one list's elements. -/
def insecureWarningsItems (path : String) (i : Nat) : List PyVal → List String
  | [] => []
  | v :: rest =>
    insecureWarningsVal s!"{path}[{i}]" v ++ insecureWarningsItems path (i + 1) rest

end

/-- `_check_sensitive_values`: content-scan errors plus insecure-default
warnings. -/
def checkSensitiveValues (content : List Char) (d : PyVal) : CheckResult :=
  { errors := sensitiveContentErrors content
    warnings := insecureWarningsVal "" d }

mutual

/-- Python `repr()` of a value (used by `str()` inside containers). -/
def pyRepr : PyVal → String
  | PyVal.str s => "'" ++ s ++ "'"
  | PyVal.int n => toString n
  | PyVal.bool b => if b then "True" else "False"
  | PyVal.none => "None"
  | PyVal.dict es => "\x7b" ++ String.intercalate ", " (pyReprEntries es) ++ "\x7d"
  | PyVal.list items => "[" ++ String.intercalate ", " (pyReprItems items) ++ "]"

/-- `repr()` of a dictionary's entries. -/
def pyReprEntries : List (String × PyVal) → List String
  | [] => []
  | (k, v) :: rest => ("'" ++ k ++ "': " ++ pyRepr v) :: pyReprEntries rest

/-- `repr()` of a list's elements. -/
def pyReprItems : List PyVal → List String
  | [] => []
  | v :: rest => pyRepr v :: pyReprItems rest

end

/-- Python `str()` of a value, as an f-string renders it. -/
def pyStr (v : PyVal) : String :=
  match v with
  | PyVal.str s => s
  | _ => pyRepr v

/-- Python `value == b` for a boolean `b` (`bool` is an `int` subclass, so
`True == 1`; values of other types never equal a boolean). -/
def pyEqBool (v : PyVal) (b : Bool) : Bool :=
  match v with
  | PyVal.bool b' => b' == b
  | PyVal.int n => n == (if b then 1 else 0)
  | _ => false

/-- The `security_requirements` table: every setting is expected `True`. -/
def securityRequirements : List (String × Bool) :=
  [("ssl_enabled", true), ("encryption_enabled", true),
   ("authentication_required", true), ("password_complexity", true)]

/-- `_check_security_requirements`: warnings only (the errors list is
never appended to). -/
def checkSecurityRequirements (d : PyVal) : CheckResult :=
  { errors := []
    warnings := securityRequirements.flatMap (fun r =>
      match findFieldInData r.1 d with
      | Option.none => [s!"Security setting '{r.1}' not found"]
      | Option.some v =>
        if !pyEqBool v r.2 then
          [s!"Security setting '{r.1}' should be {pyStr (PyVal.bool r.2)}, found {pyStr v}"]
        else []) }

/-- The `dangerous_settings` table: every setting's safe value is
`False`. -/
def dangerousSettings : List (String × Bool) :=
  [("debug", false), ("test_mode", false), ("allow_all_origins", false),
   ("disable_ssl_verification", false)]

/-- The settings whose violation is an error rather than a warning. -/
def dangerousErrorSettings : List String :=
  ["disable_ssl_verification", "allow_all_origins"]

/-- The message `_check_dangerous_settings` emits for one violation. -/
def dangerousMsg (setting : String) (v : PyVal) (safe : Bool) : String :=
  s!"Dangerous setting '{setting}' is set to {pyStr v}, should be {pyStr (PyVal.bool safe)}"

/-- `_check_dangerous_settings`: a violation of
`disable_ssl_verification` / `allow_all_origins` is an error, of the other
settings a warning. -/
def checkDangerousSettings (d : PyVal) : CheckResult :=
  { errors := dangerousSettings.flatMap (fun sv =>
      match findFieldInData sv.1 d with
      | Option.none => []
      | Option.some v =>
        if !pyEqBool v sv.2 && dangerousErrorSettings.contains sv.1 then
          [dangerousMsg sv.1 v sv.2]
        else [])
    warnings := dangerousSettings.flatMap (fun sv =>
      match findFieldInData sv.1 d with
      | Option.none => []
      | Option.some v =>
        if !pyEqBool v sv.2 && !dangerousErrorSettings.contains sv.1 then
          [dangerousMsg sv.1 v sv.2]
        else []) }

/-- The security score before the final `max(0, ·)` clamp:
`_perform_security_validation` starts from 100 and subtracts 20 per
sensitive-value error, 10 per sensitive-value warning, 15 per
security-requirement error (there are none) and 25 per dangerous-setting
error. -/
def securityScorePre (content : List Char) (d : PyVal) : Int :=
  100 - 20 * ((checkSensitiveValues content d).errors.length : Int)
      - 10 * ((checkSensitiveValues content d).warnings.length : Int)
      - 15 * ((checkSecurityRequirements d).errors.length : Int)
      - 25 * ((checkDangerousSettings d).errors.length : Int)

/-- The security sub-report of `_perform_security_validation`. -/
structure SecurityReport where
  errors : List String
  warnings : List String
  security_score : Int
deriving Repr

/-- `_perform_security_validation`: concatenated findings and the clamped
score. -/
def performSecurityValidation (content : List Char) (d : PyVal) :
    SecurityReport :=
  { errors := (checkSensitiveValues content d).errors ++
      (checkSecurityRequirements d).errors ++ (checkDangerousSettings d).errors
    warnings := (checkSensitiveValues content d).warnings ++
      (checkSecurityRequirements d).warnings ++
      (checkDangerousSettings d).warnings
    security_score := max 0 (securityScorePre content d) }

/-- Straddle transfer: when the concrete block `L` is at least as long as
the field name, a straddling suffix prefixing `L ++ post` already prefixes
`L`. -/
theorem straddle_of_block (f L post : List Char)
    (h : ∀ k < f.length, 0 < k → ¬ ((lcList f).drop k <+: lcList L))
    (hlen : f.length ≤ L.length) :
    ∀ k < f.length, 0 < k → ¬ ((lcList f).drop k <+: lcList (L ++ post)) := by
  intro k hk hk0 hp
  apply h k hk hk0
  rw [show lcList (L ++ post) = lcList L ++ lcList post by simp [lcList]] at hp
  exact (prefix_append_iff_of_len_le (by
    simp only [lcList, List.length_map, List.length_drop]
    omega)).mp hp

/-- Skip a leading context containing no occurrence of the field name. -/
theorem findallSens_skip_pre (f pre B : List Char)
    (hinf : ¬ ((lcList f) <:+: lcList pre))
    (hstr : ∀ k < f.length, 0 < k → ¬ ((lcList f).drop k <+: lcList B)) :
    findallSens f (pre ++ B) = findallSens f B :=
  findallSens_append f pre B (no_start_of_no_occurrence f pre B hinf hstr)

/-- Skip both the leading context and a newline-terminated line block in
which the field does not occur. -/
theorem findallSens_skip_line (f pre L post : List Char)
    (hinf : ¬ ((lcList f) <:+: lcList pre))
    (hstr : ∀ k < f.length, 0 < k → ¬ ((lcList f).drop k <+: lcList L))
    (hlenL : f.length ≤ L.length)
    (hA : ∀ i < L.length, ¬ (lcList f <+: lcList (L.drop i)))
    (hlast : L.getLast? = Option.some '\n')
    (hfnl : '\n' ∉ lcList f) :
    findallSens f (pre ++ L ++ post) = findallSens f post := by
  rw [List.append_assoc]
  rw [findallSens_skip_pre f pre (L ++ post) hinf
    (straddle_of_block f L post hstr hlenL)]
  exact findallSens_append f L post
    (no_start_of_block_newline f L post hA hlast hfnl)

/-- The differing line of the claim, literal-secret variant, with its
terminating newline. -/
def lineLit : List Char := "password: hunter2".toList

/-- The literal-secret line followed by its newline. -/
def lineLitNl : List Char := lineLit ++ ['\n']

/-- The placeholder variant of the differing line. -/
def linePh : List Char := "password: ${PASSWORD}".toList

/-- The placeholder line followed by its newline. -/
def linePhNl : List Char := linePh ++ ['\n']

/-- C1 amended: two configuration documents that are identical except that
one assigns the literal secret `password: hunter2` where the other uses
the placeholder `${PASSWORD}` (the exact form `_check_sensitive_values`
whitelists), where the leading context contains no sensitive field name:
the literal document's sensitive-value errors are exactly the placeholder
document's errors plus the one hardcoded-password error, and its security
score before clamping is exactly 20 points lower. -/
theorem security_score_literal_vs_placeholder
    (pre post : List Char) (d1 d2 : PyVal)
    (hpre : ∀ f ∈ sensitiveFields, ¬ ((lcList f.toList) <:+: lcList pre))
    (hwarn : insecureWarningsVal "" d1 = insecureWarningsVal "" d2)
    (hdang : (checkDangerousSettings d1).errors =
      (checkDangerousSettings d2).errors) :
    sensitiveContentErrors (pre ++ lineLitNl ++ post) =
      "Hardcoded password detected: hunter2..." ::
        sensitiveContentErrors (pre ++ linePhNl ++ post) ∧
    securityScorePre (pre ++ lineLitNl ++ post) d1 + 20 =
      securityScorePre (pre ++ linePhNl ++ post) d2 := by
  have hpwA : findallSens "password".toList (pre ++ lineLitNl ++ post) =
      "hunter2".toList :: findallSens "password".toList ('\n' :: post) := by
    rw [show pre ++ lineLitNl ++ post = pre ++ (lineLit ++ '\n' :: post) by
      simp [lineLitNl, List.append_assoc]]
    rw [findallSens_skip_pre _ _ _ (hpre "password" (by decide))
      (straddle_of_block "password".toList lineLit ('\n' :: post)
        (by decide) (by decide))]
    exact findallSens_cons_match _ _ _ _ rfl (by simp [lineLit])
  have hpwB : findallSens "password".toList (pre ++ linePhNl ++ post) =
      "${PASSWORD}".toList :: findallSens "password".toList ('\n' :: post) := by
    rw [show pre ++ linePhNl ++ post = pre ++ (linePh ++ '\n' :: post) by
      simp [linePhNl, List.append_assoc]]
    rw [findallSens_skip_pre _ _ _ (hpre "password" (by decide))
      (straddle_of_block "password".toList linePh ('\n' :: post)
        (by decide) (by decide))]
    exact findallSens_cons_match _ _ _ _ rfl (by simp [linePh])
  have hothers : ∀ f : String,
      f ∈ ["passwd", "pwd", "secret", "key", "token", "api_key",
        "private_key", "certificate", "credential"] →
      (findallSens f.toList (pre ++ lineLitNl ++ post) =
        findallSens f.toList post ∧
       findallSens f.toList (pre ++ linePhNl ++ post) =
        findallSens f.toList post) := by
    intro f hf
    simp only [List.mem_cons, List.not_mem_nil, or_false] at hf
    rcases hf with rfl | rfl | rfl | rfl | rfl | rfl | rfl | rfl | rfl <;>
      exact ⟨findallSens_skip_line _ pre lineLitNl post (hpre _ (by decide))
          (by decide) (by decide) (by decide) (by decide) (by decide),
        findallSens_skip_line _ pre linePhNl post (hpre _ (by decide))
          (by decide) (by decide) (by decide) (by decide) (by decide)⟩
  have herr : sensitiveContentErrors (pre ++ lineLitNl ++ post) =
      "Hardcoded password detected: hunter2..." ::
        sensitiveContentErrors (pre ++ linePhNl ++ post) := by
    unfold sensitiveContentErrors sensitiveFields
    simp only [List.flatMap_cons, List.flatMap_nil, List.append_nil]
    rw [hpwA, hpwB,
      (hothers "passwd" (by decide)).1, (hothers "passwd" (by decide)).2,
      (hothers "pwd" (by decide)).1, (hothers "pwd" (by decide)).2,
      (hothers "secret" (by decide)).1, (hothers "secret" (by decide)).2,
      (hothers "key" (by decide)).1, (hothers "key" (by decide)).2,
      (hothers "token" (by decide)).1, (hothers "token" (by decide)).2,
      (hothers "api_key" (by decide)).1, (hothers "api_key" (by decide)).2,
      (hothers "private_key" (by decide)).1,
      (hothers "private_key" (by decide)).2,
      (hothers "certificate" (by decide)).1,
      (hothers "certificate" (by decide)).2,
      (hothers "credential" (by decide)).1,
      (hothers "credential" (by decide)).2]
    rw [List.filter_cons, List.filter_cons]
    rw [if_pos (by decide), if_neg (by decide)]
    simp only [List.map_cons, List.cons_append]
    congr 1
  refine ⟨herr, ?_⟩
  have hlen : (sensitiveContentErrors (pre ++ lineLitNl ++ post)).length =
      (sensitiveContentErrors (pre ++ linePhNl ++ post)).length + 1 := by
    rw [herr]
    simp
  have hwlen : (insecureWarningsVal "" d1).length =
      (insecureWarningsVal "" d2).length := by rw [hwarn]
  have hdlen : ((checkDangerousSettings d1).errors).length =
      ((checkDangerousSettings d2).errors).length := by rw [hdang]
  unfold securityScorePre checkSensitiveValues checkSecurityRequirements
  dsimp only
  omega

/-- Counterexample to C1 as stated: with the `${DB_PASSWORD}` placeholder
of the claim, `_check_sensitive_values` flags the placeholder itself (only
`${VAR}` and `${PASSWORD}` are whitelisted), so the two documents score
the same 80 before clamping — the literal document is not 20 points
lower. -/
theorem security_score_placeholder_flagged_counterexample :
    securityScorePre "password: hunter2".toList
        (PyVal.dict [("password", PyVal.str "hunter2")]) = 80 ∧
    securityScorePre "password: ${DB_PASSWORD}".toList
        (PyVal.dict [("password", PyVal.str "${DB_PASSWORD}")]) = 80 ∧
    sensitiveContentErrors "password: ${DB_PASSWORD}".toList =
      ["Hardcoded password detected: " ++
        String.mk ("${DB_PASSWORD}".toList.take 10) ++ "..."] := by
  refine ⟨by decide, by decide, by decide⟩

/-- Witness for the amended C1 at the empty context: the two minimal
documents differ by exactly 20 points before clamping. -/
theorem security_score_literal_vs_placeholder_witness :
    securityScorePre ([] ++ lineLitNl ++ []) (PyVal.dict []) + 20 =
      securityScorePre ([] ++ linePhNl ++ []) (PyVal.dict []) :=
  (security_score_literal_vs_placeholder [] [] (PyVal.dict [])
    (PyVal.dict []) (by decide) rfl rfl).2

end ConfigResearch
